import Mathlib

/-!
Verification development for the IBC storage module
(`crates/ibc/src/storage.rs`): the storage-key codec between structured
IBC identifiers and hierarchical storage keys, the truncated-SHA-256
token-identity hash, the mint/throughput limit resolution, and the
mint-and-emit-event operation.

Strings are modelled as `List Char`; storage keys as lists of typed
segments, exactly as in `namada_core::storage`.
-/

namespace NamadaIbc

/-- Strings, modelled as lists of characters. -/
abbrev Str := List Char

/-- The key-segment separator `/` (`KEY_SEGMENT_SEPARATOR`). -/
def SEP : Char := '/'

/-! ## Decimal rendering and parsing of natural numbers

`u64` values (sequence numbers, revision numbers/heights) are rendered
in decimal by Rust's `Display` and parsed back by `FromStr`.  We model
this with an executable renderer (structural recursion on a fuel bound,
so the kernel can evaluate it) and a parser, and prove the round trip
via `Nat.digits`. -/

/-- Render the decimal digits of `n` most-significant first, with `fuel`
bounding the recursion depth (`fuel ≥ n` suffices). Empty for `n = 0`. -/
def natRenderLoop : Nat → Nat → Str
  | 0, _ => []
  | fuel + 1, n =>
    if n = 0 then []
    else natRenderLoop fuel (n / 10) ++ [Nat.digitChar (n % 10)]

/-- Decimal rendering of a natural number (Rust `Display` for integers). -/
def natRender (n : Nat) : Str :=
  if n = 0 then ['0'] else natRenderLoop n n

/-- A decimal digit character's value, `none` for non-digits. -/
def digitVal (c : Char) : Option Nat :=
  if '0' ≤ c ∧ c ≤ '9' then some (c.toNat - '0'.toNat) else none

/-- Parse a decimal natural number; fails on the empty string or any
non-digit character (models `u64::from_str` up to the range bound,
which callers check separately). -/
def parseNat (s : Str) : Option Nat :=
  if s = [] then none
  else s.foldlM (fun acc c => (digitVal c).map fun d => acc * 10 + d) 0

/-- Validity of an identifier string (abstraction of ICS-024 validation). -/
def IdValid (s : Str) : Prop := s ≠ [] ∧ SEP ∉ s ∧ s.head? ≠ some '#'

instance (s : Str) : Decidable (IdValid s) := by
  unfold IdValid; infer_instance

/-- An IBC client identifier (`ibc-rs` `ClientId`). -/
structure ClientId where
  id : Str
  valid : IdValid id

/-- An IBC connection identifier (`ibc-rs` `ConnectionId`). -/
structure ConnectionId where
  id : Str
  valid : IdValid id

/-- An IBC port identifier (`ibc-rs` `PortId`). -/
structure PortId where
  id : Str
  valid : IdValid id

/-- An IBC channel identifier (`ibc-rs` `ChannelId`). -/
structure ChannelId where
  id : Str
  valid : IdValid id

def ClientId.from_str (s : Str) : Option ClientId :=
  if h : IdValid s then some ⟨s, h⟩ else none

def ConnectionId.from_str (s : Str) : Option ConnectionId :=
  if h : IdValid s then some ⟨s, h⟩ else none

def PortId.from_str (s : Str) : Option PortId :=
  if h : IdValid s then some ⟨s, h⟩ else none

def ChannelId.from_str (s : Str) : Option ChannelId :=
  if h : IdValid s then some ⟨s, h⟩ else none

/-- A packet sequence number (`ibc-rs` `Sequence`, a `u64`). -/
structure Sequence where
  val : Nat
  lt : val < 2 ^ 64

/-- Decimal rendering of a sequence number (`Display` for `Sequence`). -/
def Sequence.render (s : Sequence) : Str := natRender s.val

/-- Source `Sequence::from_str`: decimal `u64` parsing. -/
def Sequence.from_str (s : Str) : Option Sequence :=
  match parseNat s with
  | none => none
  | some n => if h : n < 2 ^ 64 then some ⟨n, h⟩ else none

/-- An IBC client height (`ibc-rs` `Height`): a revision number and a
revision height, both `u64`, with the crate's invariant that the
revision height is positive (`Height::new` rejects height `0`). -/
structure Height where
  revision_number : Nat
  revision_height : Nat
  rn_lt : revision_number < 2 ^ 64
  rh_lt : revision_height < 2 ^ 64
  rh_pos : 0 < revision_height

/-- Rendering of a raw `(revision_number, revision_height)` pair as
`{number}-{height}` (the `Display` of `Height` and the height part of
`ClientConsensusStatePath`). -/
def heightRenderRaw (rn rh : Nat) : Str :=
  natRender rn ++ '-' :: natRender rh

def Height.render (h : Height) : Str :=
  heightRenderRaw h.revision_number h.revision_height

/-- Source `Height::from_str`: split on `-`, parse both parts as `u64`, and
require a positive revision height (as `Height::new` does). -/
def Height.from_str (s : Str) : Option Height :=
  match s.splitOn '-' with
  | [a, b] =>
    match parseNat a, parseNat b with
    | some rn, some rh =>
      if h : rn < 2 ^ 64 ∧ rh < 2 ^ 64 ∧ 0 < rh then
        some ⟨rn, rh, h.1, h.2.1, h.2.2⟩
      else none
    | _, _ => none
  | _ => none

/-- The 20-byte IBC token hash (`IbcTokenHash(pub [u8; HASH_LEN])`). -/
structure IbcTokenHash where
  bytes : List Nat
deriving DecidableEq

/-- Modelled from the spec: the internal-address variants this module
uses (`InternalAddress::Ibc`, `InternalAddress::IbcToken`), plus a tag
for the remaining variants, which the module only compares against. -/
inductive InternalAddress where
  | Ibc : InternalAddress
  | IbcToken (hash : IbcTokenHash) : InternalAddress
  | OtherInternal (tag : Nat) : InternalAddress
deriving DecidableEq

/-- Modelled from the spec: a ledger address — internal, or any other
address kind (established/implicit), abstracted by a numeric identity. -/
inductive Address where
  | Internal (i : InternalAddress) : Address
  | Established (id : Nat) : Address
deriving DecidableEq

/-- The reserved internal IBC module address. -/
def ibcAddress : Address := Address.Internal InternalAddress.Ibc

/-- Modelled from the spec: the string rendering of an address
(`Display`, a bech32m-style string).  Only the properties the codec
relies on matter: the rendering is non-empty, contains no `/`, and does
not begin with `#`.  We use a concrete stand-in rendering with exactly
those properties. -/
def addressRender : Address → Str
  | Address.Internal InternalAddress.Ibc => "tnam-internal-ibc".toList
  | Address.Internal (InternalAddress.IbcToken h) =>
      "tnam-ibctoken".toList ++ h.bytes.flatMap (fun b => '-' :: natRender b)
  | Address.Internal (InternalAddress.OtherInternal t) =>
      "tnam-internal-".toList ++ natRender t
  | Address.Established n => "tnam-est-".toList ++ natRender n

/-- A storage-key segment (`namada_core::storage::DbKeySeg`), modelled
from the spec: an address segment or a string segment. -/
inductive DbKeySeg where
  | AddressSeg (addr : Address) : DbKeySeg
  | StringSeg (s : Str) : DbKeySeg
deriving DecidableEq

/-- A storage key (`namada_core::storage::Key`): a sequence of segments. -/
structure Key where
  segments : List DbKeySeg
deriving DecidableEq

/-- Modelled from the spec: parsing one segment of a key path.  A
segment beginning with `#` denotes an address and must parse as one;
no string this module parses ever produces an address segment, so the
model rejects `#`-initial segments. -/
def DbKeySeg.parse (s : Str) : Option DbKeySeg :=
  if s.head? = some '#' then none else some (DbKeySeg.StringSeg s)

/-- Modelled from the spec: `Key::parse` splits a path on `/` and
parses each piece as a segment. -/
def Key.parse (s : Str) : Option Key :=
  ((s.splitOn SEP).mapM DbKeySeg.parse).map Key.mk

/-- Source `Key::join`: concatenation of segment sequences. -/
def Key.join (k k' : Key) : Key := ⟨k.segments ++ k'.segments⟩

/-- Source `Key::from(addr.to_db_key())`: a one-segment key holding an address. -/
def Key.fromAddress (a : Address) : Key := ⟨[DbKeySeg.AddressSeg a]⟩

/-- Modelled from the spec: `Key::push` with a string segment appends
one label, which must not contain the separator. -/
def Key.push (k : Key) (s : Str) : Option Key :=
  if SEP ∈ s then none else some ⟨k.segments ++ [DbKeySeg.StringSeg s]⟩

/-- Models `.expect(...)` on key construction: the source panics if the
construction fails; the default is proven unreachable for the inputs
the module supplies. -/
def expectKey (o : Option Key) : Key := o.getD ⟨[]⟩

/-- Source `ibc_key`: parse the path and prepend the IBC address segment. -/
def ibc_key (path : Str) : Option Key :=
  (Key.parse path).map fun p => (Key.fromAddress ibcAddress).join p

/-! ## Fixed label constants (from `storage.rs`) -/

def CLIENTS_COUNTER_PREFIX : Str := "clients".toList
def CONNECTIONS_COUNTER_PREFIX : Str := "connections".toList
def CHANNELS_COUNTER_PREFIX : Str := "channelEnds".toList
def COUNTER_SEG : Str := "counter".toList
def TRACE : Str := "ibc_trace".toList
def NFT_CLASS : Str := "nft_class".toList
def NFT_METADATA : Str := "nft_meta".toList
def PARAMS : Str := "params".toList
def MINT_LIMIT : Str := "mint_limit".toList
def MINT : Str := "mint".toList
def THROUGHPUT_LIMIT : Str := "throughput_limit".toList
def DEPOSIT : Str := "deposit".toList
def WITHDRAW : Str := "withdraw".toList

/-- The error type of the module.  The source's variants carry
diagnostic strings; the payloads are elided here since no claim depends
on the message text. -/
inductive Error where
  | StorageKey : Error
  | InvalidKey : Error
  | InvalidPortCapability : Error
deriving DecidableEq

/-! ## SHA-256 (the `sha2` crate's `Sha256`), over byte lists

Bytes and 32-bit words are natural numbers reduced mod `2 ^ 8` / `2 ^ 32`
where overflow matters. -/

def rotr32 (n x : Nat) : Nat := ((x >>> n) ||| (x <<< (32 - n))) % 2 ^ 32

def chFn (x y z : Nat) : Nat := (x &&& y) ^^^ ((x ^^^ 4294967295) &&& z)

def majFn (x y z : Nat) : Nat := (x &&& y) ^^^ (x &&& z) ^^^ (y &&& z)

def bigSigma0 (x : Nat) : Nat := rotr32 2 x ^^^ rotr32 13 x ^^^ rotr32 22 x

def bigSigma1 (x : Nat) : Nat := rotr32 6 x ^^^ rotr32 11 x ^^^ rotr32 25 x

def smallSigma0 (x : Nat) : Nat := rotr32 7 x ^^^ rotr32 18 x ^^^ (x >>> 3)

def smallSigma1 (x : Nat) : Nat := rotr32 17 x ^^^ rotr32 19 x ^^^ (x >>> 10)

/-- The 64 SHA-256 round constants (FIPS 180-4, in decimal). -/
def K256 : List Nat :=
  [1116352408, 1899447441, 3049323471, 3921009573,
   961987163, 1508970993, 2453635748, 2870763221,
   3624381080, 310598401, 607225278, 1426881987,
   1925078388, 2162078206, 2614888103, 3248222580,
   3835390401, 4022224774, 264347078, 604807628,
   770255983, 1249150122, 1555081692, 1996064986,
   2554220882, 2821834349, 2952996808, 3210313671,
   3336571891, 3584528711, 113926993, 338241895,
   666307205, 773529912, 1294757372, 1396182291,
   1695183700, 1986661051, 2177026350, 2456956037,
   2730485921, 2820302411, 3259730800, 3345764771,
   3516065817, 3600352804, 4094571909, 275423344,
   430227734, 506948616, 659060556, 883997877,
   958139571, 1322822218, 1537002063, 1747873779,
   1955562222, 2024104815, 2227730452, 2361852424,
   2428436474, 2756734187, 3204031479, 3329325298]

/-- Big-endian byte rendering of `w` in `len` bytes. -/
def toBytesBE (len w : Nat) : List Nat :=
  (List.range len).map fun i => (w >>> (8 * (len - 1 - i))) % 256

/-- SHA-256 message padding: append `0x80`, zero bytes up to 56 mod 64,
then the 64-bit big-endian bit length. -/
def sha256Pad (msg : List Nat) : List Nat :=
  let L := msg.length
  let k := (64 + 56 - (L + 1) % 64) % 64
  msg ++ 128 :: (List.replicate k 0 ++ toBytesBE 8 (8 * L % 2 ^ 64))

/-- Split into 64-byte chunks (fuel-bounded structural recursion). -/
def chunks64Loop : Nat → List Nat → List (List Nat)
  | 0, _ => []
  | fuel + 1, l => if l = [] then [] else l.take 64 :: chunks64Loop fuel (l.drop 64)

def chunks64 (l : List Nat) : List (List Nat) := chunks64Loop l.length l

/-- The `i`-th big-endian 32-bit word of a 64-byte block. -/
def wordBE (block : List Nat) (i : Nat) : Nat :=
  block.getD (4 * i) 0 * 2 ^ 24 + block.getD (4 * i + 1) 0 * 2 ^ 16 +
    block.getD (4 * i + 2) 0 * 2 ^ 8 + block.getD (4 * i + 3) 0

def wordsBE (block : List Nat) : List Nat := (List.range 16).map (wordBE block)

/-- Extend the 16-word block to the 64-word message schedule. -/
def extendW : Nat → List Nat → List Nat
  | 0, ws => ws
  | k + 1, ws =>
    let i := ws.length
    let w := (smallSigma1 (ws.getD (i - 2) 0) + ws.getD (i - 7) 0 +
      smallSigma0 (ws.getD (i - 15) 0) + ws.getD (i - 16) 0) % 2 ^ 32
    extendW k (ws ++ [w])

/-- The eight 32-bit working variables of SHA-256. -/
structure Sha256State where
  a : Nat
  b : Nat
  c : Nat
  d : Nat
  e : Nat
  f : Nat
  g : Nat
  h : Nat

/-- One compression round; `kw` is the round constant paired with the
schedule word. -/
def sha256Round (st : Sha256State) (kw : Nat × Nat) : Sha256State :=
  let t1 := (st.h + bigSigma1 st.e + chFn st.e st.f st.g + kw.1 + kw.2) % 2 ^ 32
  let t2 := (bigSigma0 st.a + majFn st.a st.b st.c) % 2 ^ 32
  ⟨(t1 + t2) % 2 ^ 32, st.a, st.b, st.c, (st.d + t1) % 2 ^ 32, st.e, st.f, st.g⟩

/-- Compress one 64-byte block into the running state. -/
def sha256Compress (st : Sha256State) (block : List Nat) : Sha256State :=
  let ws := extendW 48 (wordsBE block)
  let r := (K256.zip ws).foldl sha256Round st
  ⟨(st.a + r.a) % 2 ^ 32, (st.b + r.b) % 2 ^ 32, (st.c + r.c) % 2 ^ 32,
   (st.d + r.d) % 2 ^ 32, (st.e + r.e) % 2 ^ 32, (st.f + r.f) % 2 ^ 32,
   (st.g + r.g) % 2 ^ 32, (st.h + r.h) % 2 ^ 32⟩

/-- The SHA-256 initial hash value (FIPS 180-4, in decimal). -/
def sha256H0 : Sha256State :=
  ⟨1779033703, 3144134277, 1013904242, 2773480762,
   1359893119, 2600822924, 528734635, 1541459225⟩

/-- The 32-byte SHA-256 digest of a byte list. -/
def sha256 (msg : List Nat) : List Nat :=
  let fin := (chunks64 (sha256Pad msg)).foldl sha256Compress sha256H0
  toBytesBE 4 fin.a ++ toBytesBE 4 fin.b ++ toBytesBE 4 fin.c ++
    toBytesBE 4 fin.d ++ toBytesBE 4 fin.e ++ toBytesBE 4 fin.f ++
    toBytesBE 4 fin.g ++ toBytesBE 4 fin.h

/-- UTF-8 encoding of one character. -/
def utf8Char (c : Char) : List Nat :=
  let n := c.toNat
  if n < 128 then [n]
  else if n < 2048 then
    [192 ||| (n >>> 6), 128 ||| (n &&& 63)]
  else if n < 65536 then
    [224 ||| (n >>> 12), 128 ||| ((n >>> 6) &&& 63), 128 ||| (n &&& 63)]
  else
    [240 ||| (n >>> 18), 128 ||| ((n >>> 12) &&& 63),
     128 ||| ((n >>> 6) &&& 63), 128 ||| (n &&& 63)]

/-- UTF-8 encoding of a string (`str::as_ref() -> &[u8]`). -/
def utf8Encode (s : Str) : List Nat := s.flatMap utf8Char

/-- Source `HASH_LEN` from `namada_core::address`. -/
def HASH_LEN : Nat := 20

/-- Source `SHA_HASH_LEN` from `namada_core::address`. -/
def SHA_HASH_LEN : Nat := 32

/-- Source `calc_ibc_token_hash`: SHA-256 of the UTF-8 bytes of the denom,
truncated to its first `HASH_LEN` (20) bytes
(`output.copy_from_slice(&input[..HASH_LEN])`). -/
def calc_ibc_token_hash (denom : Str) : IbcTokenHash :=
  ⟨(sha256 (utf8Encode denom)).take HASH_LEN⟩

/-- Source `ibc_token`: wrap the truncated hash in an internal token address. -/
def ibc_token (denom : Str) : Address :=
  Address.Internal (InternalAddress.IbcToken (calc_ibc_token_hash denom))

/-- Source `ibc_token_for_nft`: the token for `format!("{class_id}/{token_id}")`.
`PrefixedClassId` and `TokenId` are modelled by their rendered strings. -/
def ibc_token_for_nft (class_id token_id : Str) : Address :=
  ibc_token (class_id ++ SEP :: token_id)

/-! ## Key constructors (`storage.rs`) -/

def client_counter_key : Key :=
  expectKey (ibc_key (List.intercalate [SEP] [CLIENTS_COUNTER_PREFIX, COUNTER_SEG]))

def connection_counter_key : Key :=
  expectKey (ibc_key (List.intercalate [SEP] [CONNECTIONS_COUNTER_PREFIX, COUNTER_SEG]))

def channel_counter_key : Key :=
  expectKey (ibc_key (List.intercalate [SEP] [CHANNELS_COUNTER_PREFIX, COUNTER_SEG]))

/-- Source `Path::ClientState` renders as `clients/{client_id}/clientState`. -/
def client_state_key (client_id : ClientId) : Key :=
  expectKey (ibc_key (List.intercalate [SEP]
    ["clients".toList, client_id.id, "clientState".toList]))

/-- Source `Path::ClientConsensusState` renders as
`clients/{client_id}/consensusStates/{revision_number}-{revision_height}`. -/
def consensusStatePathRaw (client_id : ClientId) (rn rh : Nat) : Str :=
  List.intercalate [SEP]
    ["clients".toList, client_id.id, "consensusStates".toList, heightRenderRaw rn rh]

def consensus_state_key (client_id : ClientId) (height : Height) : Key :=
  expectKey (ibc_key
    (consensusStatePathRaw client_id height.revision_number height.revision_height))

/-- Source `str::strip_suffix`: remove `suf` from the end if it is a suffix. -/
def stripSuffix (s suf : Str) : Option Str :=
  if s.length < suf.length then none
  else if s.drop (s.length - suf.length) = suf then
    some (s.take (s.length - suf.length))
  else none

/-- Source `consensus_state_prefix`: the zero-height consensus-state path with
its literal `/0-0` suffix stripped, under the IBC namespace. -/
def consensus_state_prefix (client_id : ClientId) : Key :=
  expectKey (ibc_key
    ((stripSuffix (consensusStatePathRaw client_id 0 0) "/0-0".toList).getD []))

/-- Source `Path::Connection` renders as `connections/{connection_id}`. -/
def connection_key (conn_id : ConnectionId) : Key :=
  expectKey (ibc_key (List.intercalate [SEP] ["connections".toList, conn_id.id]))

/-- Source `Path::ChannelEnd` renders as
`channelEnds/ports/{port_id}/channels/{channel_id}`. -/
def channel_key (port_id : PortId) (channel_id : ChannelId) : Key :=
  expectKey (ibc_key (List.intercalate [SEP]
    ["channelEnds".toList, "ports".toList, port_id.id,
     "channels".toList, channel_id.id]))

/-- Source `Path::ClientConnection` renders as `clients/{client_id}/connections`. -/
def client_connections_key (client_id : ClientId) : Key :=
  expectKey (ibc_key (List.intercalate [SEP]
    ["clients".toList, client_id.id, "connections".toList]))

/-- Source `Path::Ports` renders as `ports/{port_id}`. -/
def port_key (port_id : PortId) : Key :=
  expectKey (ibc_key (List.intercalate [SEP] ["ports".toList, port_id.id]))

/-- Source `Path::SeqSend` renders as
`nextSequenceSend/ports/{port_id}/channels/{channel_id}`. -/
def next_sequence_send_key (port_id : PortId) (channel_id : ChannelId) : Key :=
  expectKey (ibc_key (List.intercalate [SEP]
    ["nextSequenceSend".toList, "ports".toList, port_id.id,
     "channels".toList, channel_id.id]))

def next_sequence_recv_key (port_id : PortId) (channel_id : ChannelId) : Key :=
  expectKey (ibc_key (List.intercalate [SEP]
    ["nextSequenceRecv".toList, "ports".toList, port_id.id,
     "channels".toList, channel_id.id]))

def next_sequence_ack_key (port_id : PortId) (channel_id : ChannelId) : Key :=
  expectKey (ibc_key (List.intercalate [SEP]
    ["nextSequenceAck".toList, "ports".toList, port_id.id,
     "channels".toList, channel_id.id]))

/-- Source `Path::Commitment` renders as
`commitments/ports/{port_id}/channels/{channel_id}/sequences/{sequence}`. -/
def commitment_key (port_id : PortId) (channel_id : ChannelId)
    (sequence : Sequence) : Key :=
  expectKey (ibc_key (List.intercalate [SEP]
    ["commitments".toList, "ports".toList, port_id.id,
     "channels".toList, channel_id.id, "sequences".toList, sequence.render]))

def receipt_key (port_id : PortId) (channel_id : ChannelId)
    (sequence : Sequence) : Key :=
  expectKey (ibc_key (List.intercalate [SEP]
    ["receipts".toList, "ports".toList, port_id.id,
     "channels".toList, channel_id.id, "sequences".toList, sequence.render]))

def ack_key (port_id : PortId) (channel_id : ChannelId)
    (sequence : Sequence) : Key :=
  expectKey (ibc_key (List.intercalate [SEP]
    ["acks".toList, "ports".toList, port_id.id,
     "channels".toList, channel_id.id, "sequences".toList, sequence.render]))

/-- Source `format!("clients/{}/update_timestamp", client_id)`. -/
def client_update_timestamp_key (client_id : ClientId) : Key :=
  expectKey (ibc_key (List.intercalate [SEP]
    ["clients".toList, client_id.id, "update_timestamp".toList]))

/-- Source `format!("clients/{}/update_height", client_id)`. -/
def client_update_height_key (client_id : ClientId) : Key :=
  expectKey (ibc_key (List.intercalate [SEP]
    ["clients".toList, client_id.id, "update_height".toList]))

/-- Source `format!("{NFT_CLASS}/{ibc_token}")` under the IBC namespace. -/
def nft_class_key (class_id : Str) : Key :=
  expectKey (ibc_key (NFT_CLASS ++ SEP :: addressRender (ibc_token class_id)))

/-- Source `format!("{NFT_METADATA}/{ibc_token}")` under the IBC namespace. -/
def nft_metadata_key (class_id token_id : Str) : Key :=
  expectKey (ibc_key
    (NFT_METADATA ++ SEP :: addressRender (ibc_token_for_nft class_id token_id)))

def ibc_trace_key_prefix (addr : Option Str) : Key :=
  let p := expectKey ((Key.fromAddress ibcAddress).push TRACE)
  match addr with
  | some a => expectKey (p.push a)
  | none => p

def ibc_trace_key (addr token_hash : Str) : Key :=
  expectKey (( ibc_trace_key_prefix (some addr)).push token_hash)

def params_key : Key :=
  expectKey ((Key.fromAddress ibcAddress).push PARAMS)

def mint_limit_key (token : Address) : Key :=
  expectKey (((Key.fromAddress ibcAddress).push MINT_LIMIT).bind
    fun k => k.push (addressRender token))

def mint_amount_key (token : Address) : Key :=
  expectKey (((Key.fromAddress ibcAddress).push MINT).bind
    fun k => k.push (addressRender token))

def throughput_limit_key (token : Address) : Key :=
  expectKey (((Key.fromAddress ibcAddress).push THROUGHPUT_LIMIT).bind
    fun k => k.push (addressRender token))

def deposit_prefix : Key :=
  expectKey ((Key.fromAddress ibcAddress).push DEPOSIT)

def deposit_key (token : Address) : Key :=
  expectKey (( deposit_prefix).push (addressRender token))

def withdraw_prefix : Key :=
  expectKey ((Key.fromAddress ibcAddress).push WITHDRAW)

def withdraw_key (token : Address) : Key :=
  expectKey (( withdraw_prefix).push (addressRender token))

/-! ## Decoders (`storage.rs`) -/

/-- Source `client_id`: client ID from a key `#IBC/clients/<client_id>`;
trailing segments after the third are ignored (the source pattern ends
in `..`). -/
def client_id (key : Key) : Except Error ClientId :=
  match key.segments with
  | DbKeySeg.AddressSeg addr :: DbKeySeg.StringSeg pfx ::
      DbKeySeg.StringSeg cid :: _ =>
    if addr = ibcAddress ∧ pfx = "clients".toList then
      match ClientId.from_str cid with
      | some c => Except.ok c
      | none => Except.error Error.InvalidKey
    else Except.error Error.InvalidKey
  | _ => Except.error Error.InvalidKey

/-- Source `consensus_height`: the height from a key
`#IBC/clients/<client_id>/consensusStates/<height>` (exactly five
segments). -/
def consensus_height (key : Key) : Except Error Height :=
  match key.segments with
  | [DbKeySeg.AddressSeg addr, DbKeySeg.StringSeg pfx,
     DbKeySeg.StringSeg _cid, DbKeySeg.StringSeg module0,
     DbKeySeg.StringSeg height] =>
    if addr = ibcAddress ∧ pfx = "clients".toList ∧
        module0 = "consensusStates".toList then
      match Height.from_str height with
      | some h => Except.ok h
      | none => Except.error Error.InvalidKey
    else Except.error Error.InvalidKey
  | _ => Except.error Error.InvalidKey

/-- Source `connection_id`: the connection ID from a key
`#IBC/connections/<conn_id>` (exactly three segments). -/
def connection_id (key : Key) : Except Error ConnectionId :=
  match key.segments with
  | [DbKeySeg.AddressSeg addr, DbKeySeg.StringSeg pfx,
     DbKeySeg.StringSeg conn_id] =>
    if addr = ibcAddress ∧ pfx = "connections".toList then
      match ConnectionId.from_str conn_id with
      | some c => Except.ok c
      | none => Except.error Error.InvalidKey
    else Except.error Error.InvalidKey
  | _ => Except.error Error.InvalidKey

/-- Source `port_channel_id`: port and channel IDs from a channel/next-sequence
key `#IBC/<pfx>/ports/<port_id>/channels/<channel_id>` (exactly six
segments, `pfx` one of the four channel-scoped labels). -/
def port_channel_id (key : Key) : Except Error (PortId × ChannelId) :=
  match key.segments with
  | [DbKeySeg.AddressSeg addr, DbKeySeg.StringSeg pfx,
     DbKeySeg.StringSeg module0, DbKeySeg.StringSeg port,
     DbKeySeg.StringSeg module1, DbKeySeg.StringSeg channel] =>
    if addr = ibcAddress ∧
        (pfx = "channelEnds".toList ∨ pfx = "nextSequenceSend".toList ∨
         pfx = "nextSequenceRecv".toList ∨ pfx = "nextSequenceAck".toList) ∧
        module0 = "ports".toList ∧ module1 = "channels".toList then
      match PortId.from_str port with
      | none => Except.error Error.InvalidKey
      | some port_id =>
        match ChannelId.from_str channel with
        | none => Except.error Error.InvalidKey
        | some channel_id => Except.ok (port_id, channel_id)
    else Except.error Error.InvalidKey
  | _ => Except.error Error.InvalidKey

/-- Source `port_channel_sequence_id`: port ID, channel ID and sequence from a
packet-info key
`#IBC/<pfx>/ports/<port_id>/channels/<channel_id>/sequences/<seq>`
(exactly eight segments, `pfx` one of the three packet labels). -/
def port_channel_sequence_id (key : Key) :
    Except Error (PortId × ChannelId × Sequence) :=
  match key.segments with
  | [DbKeySeg.AddressSeg addr, DbKeySeg.StringSeg pfx,
     DbKeySeg.StringSeg module0, DbKeySeg.StringSeg port,
     DbKeySeg.StringSeg module1, DbKeySeg.StringSeg channel,
     DbKeySeg.StringSeg module2, DbKeySeg.StringSeg seq_index] =>
    if addr = ibcAddress ∧
        (pfx = "commitments".toList ∨ pfx = "receipts".toList ∨
         pfx = "acks".toList) ∧
        module0 = "ports".toList ∧ module1 = "channels".toList ∧
        module2 = "sequences".toList then
      match PortId.from_str port with
      | none => Except.error Error.InvalidKey
      | some port_id =>
        match ChannelId.from_str channel with
        | none => Except.error Error.InvalidKey
        | some channel_id =>
          match Sequence.from_str seq_index with
          | none => Except.error Error.InvalidKey
          | some seq => Except.ok (port_id, channel_id, seq)
    else Except.error Error.InvalidKey
  | _ => Except.error Error.InvalidKey

/-- Source `port_id`: the port ID from a key `#IBC/ports/<port_id>`; trailing
segments after the third are ignored (the source pattern ends in `..`). -/
def port_id (key : Key) : Except Error PortId :=
  match key.segments with
  | DbKeySeg.AddressSeg addr :: DbKeySeg.StringSeg pfx ::
      DbKeySeg.StringSeg pid :: _ =>
    if addr = ibcAddress ∧ pfx = "ports".toList then
      match PortId.from_str pid with
      | some p => Except.ok p
      | none => Except.error Error.InvalidKey
    else Except.error Error.InvalidKey
  | _ => Except.error Error.InvalidKey

/-! ## Classification predicates (`storage.rs`) -/

/-- Source `is_ibc_key`: tests whether the first segment is the IBC address
segment.  The source indexes `segments[0]`, which panics on an empty
key; the spec's `Key` invariant (non-empty) rules that out, and the
empty case is modelled as `false`. -/
def is_ibc_key (key : Key) : Bool :=
  match key.segments with
  | DbKeySeg.AddressSeg addr :: _ => addr = ibcAddress
  | _ => false

/-- Source `is_ibc_trace_key`: the owner and token hash when the key has the
exact shape `#IBC/ibc_trace/<owner>/<hash>`, else `none`. -/
def is_ibc_trace_key (key : Key) : Option (Str × Str) :=
  match key.segments with
  | [DbKeySeg.AddressSeg addr, DbKeySeg.StringSeg pfx,
     DbKeySeg.StringSeg owner, DbKeySeg.StringSeg hash] =>
    if addr = ibcAddress ∧ pfx = TRACE then some (owner, hash) else none
  | _ => none

/-- Source `is_ibc_counter_key`: true exactly for the three counter keys
`#IBC/{clients|connections|channelEnds}/counter`. -/
def is_ibc_counter_key (key : Key) : Bool :=
  match key.segments with
  | [DbKeySeg.AddressSeg addr, DbKeySeg.StringSeg pfx,
     DbKeySeg.StringSeg counter] =>
    addr = ibcAddress ∧
      (pfx = CLIENTS_COUNTER_PREFIX ∨ pfx = CONNECTIONS_COUNTER_PREFIX ∨
       pfx = CHANNELS_COUNTER_PREFIX) ∧ counter = COUNTER_SEG
  | _ => false

/-! ## Storage reads and limit resolution (`storage.rs`)

The `StorageRead` interface is modelled from the spec (§6): typed reads
return the decoded value when the key holds one of that type, `none`
when the key is absent, and a storage error when the stored bytes fail
to decode as the requested type. -/

/-- Source `IbcParameters` (from `crate::parameters`, outside `src/`), modelled
from the spec: the two default limits this module reads. -/
structure IbcParameters where
  default_mint_limit : Nat
  default_per_epoch_throughput_limit : Nat
deriving DecidableEq

/-- Modelled from the spec: a stored value is a token amount, an
`IbcParameters` record, or data of some other type. -/
inductive StoredVal where
  | amount (a : Nat) : StoredVal
  | params (p : IbcParameters) : StoredVal
  | other : StoredVal
deriving DecidableEq

/-- Modelled from the spec: the backing store is a partial map from
keys to stored values. -/
def Store := Key → Option StoredVal

/-- Modelled from the spec: `storage.read::<Amount>(key)`. -/
def read_amount (store : Store) (k : Key) : Except Unit (Option Nat) :=
  match store k with
  | none => Except.ok none
  | some (StoredVal.amount a) => Except.ok (some a)
  | some _ => Except.error ()

/-- Modelled from the spec: `storage.read::<IbcParameters>(key)`. -/
def read_params (store : Store) (k : Key) : Except Unit (Option IbcParameters) :=
  match store k with
  | none => Except.ok none
  | some (StoredVal.params p) => Except.ok (some p)
  | some _ => Except.error ()

/-- Outcome of `get_limits`: a limit pair, a propagated storage error,
or the `expect("Parameters should be stored")` panic. -/
inductive GetLimitsResult where
  | ok (mint_limit throughput_limit : Nat) : GetLimitsResult
  | readErr : GetLimitsResult
  | missingParams : GetLimitsResult
deriving DecidableEq

/-- Source `get_limits`: per-token overrides with fallback to the defaults in
`IbcParameters` at `params_key`. -/
def get_limits (store : Store) (token : Address) : GetLimitsResult :=
  match read_amount store (mint_limit_key token) with
  | Except.error _ => GetLimitsResult.readErr
  | Except.ok mint_limit =>
    match read_amount store (throughput_limit_key token) with
    | Except.error _ => GetLimitsResult.readErr
    | Except.ok throughput_limit =>
      match mint_limit, throughput_limit with
      | some ml, some tl => GetLimitsResult.ok ml tl
      | ml, tl =>
        match read_params store params_key with
        | Except.error _ => GetLimitsResult.readErr
        | Except.ok none => GetLimitsResult.missingParams
        | Except.ok (some p) =>
          GetLimitsResult.ok (ml.getD p.default_mint_limit)
            (tl.getD p.default_per_epoch_throughput_limit)

/-! ## Minting (`storage.rs` `mint_tokens`)

The token-ledger collaborator (`namada_token`, outside `src/`) is
modelled from the spec (§6): a mint primitive that credits the target
and can fail (aborting with no state change), and a balance read. -/

/-- Source `namada_events::EventLevel`. -/
inductive EventLevel where
  | Block : EventLevel
  | Tx : EventLevel
deriving DecidableEq

/-- Source `namada_token::event::BalanceChangeTarget` (the variant used here). -/
inductive BalanceChangeTarget where
  | Internal (a : Address) : BalanceChangeTarget
deriving DecidableEq

/-- Source `namada_token::event::TokenEvent` (the variant used here). -/
inductive TokenEvent where
  | BalanceChange (level : EventLevel) (descriptor : Str) (token : Address)
      (target : BalanceChangeTarget) (post_balance : Option Nat)
      (diff : Int) : TokenEvent
deriving DecidableEq

/-- Modelled from the spec: the ledger state a mint touches — the token
balances (token → owner → amount) and the emitted-event log. -/
structure LedgerState where
  balances : Address → Address → Nat
  events : List TokenEvent

/-- Modelled from the spec: the maximum representable token amount. -/
def amountMax : Nat := 2 ^ 256 - 1

/-- Modelled from the spec: `namada_token::mint_tokens` credits `amount`
of `token` to `target`, failing (with no state change and no event) if
the balance cannot be represented. -/
def token_mint_tokens (st : LedgerState) (_minter token target : Address)
    (amount : Nat) : Except Unit LedgerState :=
  if st.balances token target + amount ≤ amountMax then
    Except.ok
      ⟨fun t o =>
        if t = token ∧ o = target then st.balances token target + amount
        else st.balances t o,
       st.events⟩
  else Except.error ()

/-- Modelled from the spec: `namada_token::read_balance`. -/
def read_balance (st : LedgerState) (token owner : Address) : Nat :=
  st.balances token owner

/-- Modelled from the spec: `EmitEvents::emit` appends to the event log. -/
def emitEvent (st : LedgerState) (e : TokenEvent) : LedgerState :=
  ⟨st.balances, st.events ++ [e]⟩

/-- Source `mint_tokens`: mint via the token module (attributed to the internal
IBC address), read back the post balance, then emit one balance-change
event. -/
def mint_tokens (st : LedgerState) (target token : Address) (amount : Nat) :
    Except Unit LedgerState :=
  match token_mint_tokens st ibcAddress token target amount with
  | Except.error e => Except.error e
  | Except.ok st1 =>
    let post_balance := read_balance st1 token target
    Except.ok (emitEvent st1
      (TokenEvent.BalanceChange EventLevel.Tx ("mint-ibc-tokens".toList) token
        (BalanceChangeTarget.Internal target) (some post_balance)
        (Int.ofNat amount)))

/-- A string usable as one key-path segment: no separator, and not
`#`-initial (so it parses as a string segment). -/
def SegOk (s : Str) : Prop := SEP ∉ s ∧ s.head? ≠ some '#'

instance (s : Str) : Decidable (SegOk s) := by
  unfold SegOk; infer_instance

/-! ## Concrete example identifiers (used by witnesses and
counterexamples) -/

def exClientId : ClientId := ⟨"07-tendermint-0".toList, by decide⟩

def exConnectionId : ConnectionId := ⟨"connection-0".toList, by decide⟩

def exPortId : PortId := ⟨"transfer".toList, by decide⟩

def exChannelId : ChannelId := ⟨"channel-0".toList, by decide⟩

/-- The boundary sequence number `0`. -/
def exSequence : Sequence := ⟨0, by decide⟩

def exHeight : Height := ⟨0, 1, by decide, by decide, by decide⟩

/-- A concrete non-IBC token address for limit/mint examples. -/
def exToken : Address := Address.Established 3

def exParams : IbcParameters := ⟨5, 7⟩

/-- Store holding both per-token overrides and no parameters record. -/
def exStoreBoth : Store := fun k =>
  if k = mint_limit_key exToken then some (StoredVal.amount 11)
  else if k = throughput_limit_key exToken then some (StoredVal.amount 13)
  else none

/-- Store holding only the mint-limit override, plus the parameters. -/
def exStoreMintOnly : Store := fun k =>
  if k = mint_limit_key exToken then some (StoredVal.amount 11)
  else if k = params_key then some (StoredVal.params exParams)
  else none

/-- Store holding no overrides, only the parameters record. -/
def exStoreNone : Store := fun k =>
  if k = params_key then some (StoredVal.params exParams)
  else none

/-- Store holding both overrides and the parameters record. -/
def exStoreAll : Store := fun k =>
  if k = mint_limit_key exToken then some (StoredVal.amount 11)
  else if k = throughput_limit_key exToken then some (StoredVal.amount 13)
  else if k = params_key then some (StoredVal.params exParams)
  else none

/-- A ledger with all balances zero and no events. -/
def exLedger : LedgerState := ⟨fun _ _ => 0, []⟩

def exTarget : Address := Address.Established 1

def exMintToken : Address := Address.Established 2

/-! ## Theorems: general helper lemmas -/

theorem natRenderLoop_eq (fuel : Nat) :
    ∀ n, n ≤ fuel →
      natRenderLoop fuel n = ((Nat.digits 10 n).map Nat.digitChar).reverse := by
  induction fuel with
  | zero =>
    intro n hn
    have : n = 0 := Nat.le_zero.mp hn
    simp [this, natRenderLoop]
  | succ fuel ih =>
    intro n hn
    by_cases h0 : n = 0
    · simp [h0, natRenderLoop]
    · rw [natRenderLoop, if_neg h0]
      have hd : Nat.digits 10 n = n % 10 :: Nat.digits 10 (n / 10) :=
        Nat.digits_def' (by norm_num) (Nat.pos_of_ne_zero h0)
      have hdiv : n / 10 ≤ fuel := by
        have h1 : n / 10 < n := Nat.div_lt_self (Nat.pos_of_ne_zero h0) (by norm_num)
        omega
      rw [ih (n / 10) hdiv, hd]
      simp

theorem natRender_eq (n : Nat) :
    natRender n =
      if n = 0 then ['0'] else ((Nat.digits 10 n).map Nat.digitChar).reverse := by
  unfold natRender
  by_cases h : n = 0
  · simp [h]
  · rw [if_neg h, if_neg h, natRenderLoop_eq n n (Nat.le_refl n)]

theorem digitVal_digitChar {d : Nat} (hd : d < 10) :
    digitVal (Nat.digitChar d) = some d := by
  interval_cases d <;> decide

/-- Folding the parser step over rendered digits accumulates the value. -/
theorem foldlM_digits (ds : List Nat) (hds : ∀ d ∈ ds, d < 10) (acc : Nat) :
    List.foldlM (fun acc c => (digitVal c).map fun d => acc * 10 + d) acc
        (ds.map Nat.digitChar) =
      some (ds.foldl (fun a d => a * 10 + d) acc) := by
  induction ds generalizing acc with
  | nil => rfl
  | cons d ds ih =>
    have hd : d < 10 := hds d (List.mem_cons_self d ds)
    simp only [List.map_cons, List.foldlM_cons, digitVal_digitChar hd,
      Option.map_some', Option.bind_eq_bind, Option.some_bind]
    rw [ih (fun x hx => hds x (List.mem_cons_of_mem d hx))]
    rfl

theorem foldl_reverse_digits (l : List Nat) :
    l.reverse.foldl (fun a d => a * 10 + d) 0 = Nat.ofDigits 10 l := by
  induction l with
  | nil => rfl
  | cons d l ih =>
    rw [List.reverse_cons, List.foldl_append, ih]
    simp [Nat.ofDigits_cons]
    ring

theorem parseNat_natRender (n : Nat) : parseNat (natRender n) = some n := by
  rw [natRender_eq]
  by_cases h : n = 0
  · rw [if_pos h, h]; decide
  · rw [if_neg h]
    have hne : Nat.digits 10 n ≠ [] := Nat.digits_ne_nil_iff_ne_zero.mpr h
    have hlt : ∀ d ∈ (Nat.digits 10 n).reverse, d < 10 := by
      intro d hd
      exact Nat.digits_lt_base (by norm_num) (List.mem_reverse.mp hd)
    rw [parseNat, if_neg (by simpa using hne), ← List.map_reverse,
      foldlM_digits _ hlt 0, foldl_reverse_digits, Nat.ofDigits_digits]

/-- Every character of a rendered number is a decimal digit. -/
theorem natRender_digits (n : Nat) :
    ∀ c ∈ natRender n, '0' ≤ c ∧ c ≤ '9' := by
  rw [natRender_eq]
  by_cases h : n = 0
  · rw [if_pos h]; intro c hc; simp at hc; subst hc; exact ⟨by decide, by decide⟩
  · rw [if_neg h]
    intro c hc
    rw [List.mem_reverse, List.mem_map] at hc
    obtain ⟨d, hd, rfl⟩ := hc
    have : d < 10 := Nat.digits_lt_base (by norm_num) hd
    interval_cases d <;> exact ⟨by decide, by decide⟩

theorem natRender_ne_nil (n : Nat) : natRender n ≠ [] := by
  rw [natRender_eq]
  by_cases h : n = 0
  · simp [h]
  · rw [if_neg h]
    simpa using Nat.digits_ne_nil_iff_ne_zero.mpr h

/-! ## IBC identifier types

`ClientId`, `ConnectionId`, `PortId`, `ChannelId` come from the external
`ibc-rs` crate: each wraps a validated, printable string (ICS-024
identifier grammar).  The key codec relies only on these consequences of
that grammar, which we take as the validity predicate: an identifier is
non-empty, contains no `/` (so it occupies exactly one key segment), and
does not begin with `#` (so it never parses as an address segment).
`from_str` is the partial inverse of rendering on this domain. -/

theorem clientId_from_str_id (c : ClientId) : ClientId.from_str c.id = some c := by
  cases c with
  | mk id v => simp [ClientId.from_str, v]

theorem connectionId_from_str_id (c : ConnectionId) :
    ConnectionId.from_str c.id = some c := by
  cases c with
  | mk id v => simp [ConnectionId.from_str, v]

theorem portId_from_str_id (p : PortId) : PortId.from_str p.id = some p := by
  cases p with
  | mk id v => simp [PortId.from_str, v]

theorem channelId_from_str_id (c : ChannelId) : ChannelId.from_str c.id = some c := by
  cases c with
  | mk id v => simp [ChannelId.from_str, v]

theorem sequence_from_str_render (s : Sequence) :
    Sequence.from_str s.render = some s := by
  cases s with
  | mk v hv =>
    simp only [Sequence.from_str, Sequence.render, parseNat_natRender]
    rw [dif_pos hv]

theorem natRender_not_mem_dash (n : Nat) : '-' ∉ natRender n := by
  intro hmem
  have := natRender_digits n '-' hmem
  revert this; decide

theorem heightRenderRaw_splitOn (rn rh : Nat) :
    (heightRenderRaw rn rh).splitOn '-' = [natRender rn, natRender rh] := by
  have : heightRenderRaw rn rh = List.intercalate ['-'] [natRender rn, natRender rh] := by
    simp [heightRenderRaw, List.intercalate]
  rw [this]
  refine List.splitOn_intercalate [natRender rn, natRender rh] '-' ?_ (by simp)
  intro l hl
  simp at hl
  rcases hl with rfl | rfl <;> exact natRender_not_mem_dash _

theorem height_from_str_render (h : Height) : Height.from_str h.render = some h := by
  cases h with
  | mk rn rh h1 h2 h3 =>
    simp only [Height.from_str, Height.render, heightRenderRaw_splitOn,
      parseNat_natRender]
    rw [dif_pos ⟨h1, h2, h3⟩]

/-! ## Addresses and storage keys

`Address`, `DbKeySeg` and `Key` live in `namada_core` (this repository,
but outside `src/`), so they are modelled from the spec (§3, §6): a key
is an ordered sequence of typed segments, either an address segment
(a module namespace) or a string segment (an arbitrary label). -/

theorem sep_not_mem_natRender (n : Nat) : SEP ∉ natRender n := by
  intro hmem
  have := natRender_digits n SEP hmem
  revert this; decide

theorem sep_not_mem_addressRender (a : Address) : SEP ∉ addressRender a := by
  cases a with
  | Internal i =>
    cases i with
    | Ibc => decide
    | IbcToken h =>
      intro hmem
      simp only [addressRender, List.mem_append] at hmem
      rcases hmem with hmem | hmem
      · revert hmem; decide
      · rw [List.mem_flatMap] at hmem
        obtain ⟨b, _, hb⟩ := hmem
        rcases List.mem_cons.mp hb with h | h
        · exact absurd h (by decide)
        · exact sep_not_mem_natRender b h
    | OtherInternal t =>
      intro hmem
      simp only [addressRender, List.mem_append] at hmem
      rcases hmem with hmem | hmem
      · revert hmem; decide
      · exact sep_not_mem_natRender t hmem
  | Established n =>
    intro hmem
    simp only [addressRender, List.mem_append] at hmem
    rcases hmem with hmem | hmem
    · revert hmem; decide
    · exact sep_not_mem_natRender n hmem

theorem addressRender_head (a : Address) : (addressRender a).head? = some 't' := by
  cases a with
  | Internal i => cases i with
    | Ibc => decide
    | IbcToken h => simp [addressRender]
    | OtherInternal t => simp [addressRender]
  | Established n => simp [addressRender]

theorem mapM_parse_stringSegs (ss : List Str)
    (h : ∀ s ∈ ss, s.head? ≠ some '#') :
    ss.mapM DbKeySeg.parse = some (ss.map DbKeySeg.StringSeg) := by
  induction ss with
  | nil => rfl
  | cons s ss ih =>
    rw [List.mapM_cons, DbKeySeg.parse,
      if_neg (h s (List.mem_cons_self s ss)),
      ih (fun x hx => h x (List.mem_cons_of_mem s hx))]
    rfl

theorem Key.parse_intercalate (ss : List Str) (hne : ss ≠ [])
    (h : ∀ s ∈ ss, SEP ∉ s ∧ s.head? ≠ some '#') :
    Key.parse (List.intercalate [SEP] ss) = some ⟨ss.map DbKeySeg.StringSeg⟩ := by
  rw [Key.parse,
    List.splitOn_intercalate ss SEP (fun l hl => (h l hl).1) hne,
    mapM_parse_stringSegs ss (fun s hs => (h s hs).2)]
  rfl

theorem ibc_key_intercalate (ss : List Str) (hne : ss ≠ [])
    (h : ∀ s ∈ ss, SEP ∉ s ∧ s.head? ≠ some '#') :
    ibc_key (List.intercalate [SEP] ss) =
      some ⟨DbKeySeg.AddressSeg ibcAddress :: ss.map DbKeySeg.StringSeg⟩ := by
  rw [ibc_key, Key.parse_intercalate ss hne h]
  rfl

theorem head?_ne_of_digits {s : Str} (hs : ∀ c ∈ s, '0' ≤ c ∧ c ≤ '9') :
    s.head? ≠ some '#' := by
  intro h
  have : '#' ∈ s := List.mem_of_mem_head? h
  have := hs '#' this
  revert this; decide

theorem segOk_of_IdValid {s : Str} (h : IdValid s) : SegOk s := ⟨h.2.1, h.2.2⟩

theorem segOk_natRender (n : Nat) : SegOk (natRender n) :=
  ⟨sep_not_mem_natRender n, head?_ne_of_digits (natRender_digits n)⟩

theorem head?_append_of_ne_nil {α : Type} (a b : List α) (ha : a ≠ []) :
    (a ++ b).head? = a.head? := by
  cases a with
  | nil => exact absurd rfl ha
  | cons x xs => rfl

theorem segOk_heightRenderRaw (rn rh : Nat) : SegOk (heightRenderRaw rn rh) := by
  constructor
  · intro hmem
    rw [heightRenderRaw, List.mem_append, List.mem_cons] at hmem
    rcases hmem with h | h | h
    · exact sep_not_mem_natRender rn h
    · exact absurd h (by decide)
    · exact sep_not_mem_natRender rh h
  · rw [heightRenderRaw,
      head?_append_of_ne_nil _ _ (natRender_ne_nil rn)]
    exact head?_ne_of_digits (natRender_digits rn)

theorem segOk_seqRender (s : Sequence) : SegOk s.render := segOk_natRender s.val

theorem segOk_addressRender (a : Address) : SegOk (addressRender a) := by
  refine ⟨sep_not_mem_addressRender a, ?_⟩
  rw [addressRender_head a]
  decide

theorem expect_ibc_key_intercalate (ss : List Str) (hne : ss ≠ [])
    (h : ∀ s ∈ ss, SegOk s) :
    expectKey (ibc_key (List.intercalate [SEP] ss)) =
      ⟨DbKeySeg.AddressSeg ibcAddress :: ss.map DbKeySeg.StringSeg⟩ := by
  rw [ibc_key_intercalate ss hne h]
  rfl

/-! ## Segment-level characterizations of the key constructors -/

theorem client_counter_key_eq :
    client_counter_key =
      ⟨[DbKeySeg.AddressSeg ibcAddress,
        DbKeySeg.StringSeg CLIENTS_COUNTER_PREFIX,
        DbKeySeg.StringSeg COUNTER_SEG]⟩ := by
  have hss : ∀ s ∈ [CLIENTS_COUNTER_PREFIX, COUNTER_SEG], SegOk s := by
    intro s hs
    simp only [List.mem_cons, List.not_mem_nil, or_false] at hs
    rcases hs with rfl | rfl
    exacts [by decide,
      by decide]
  rw [client_counter_key, expect_ibc_key_intercalate _ (by simp) hss]
  rfl

theorem connection_counter_key_eq :
    connection_counter_key =
      ⟨[DbKeySeg.AddressSeg ibcAddress,
        DbKeySeg.StringSeg CONNECTIONS_COUNTER_PREFIX,
        DbKeySeg.StringSeg COUNTER_SEG]⟩ := by
  have hss : ∀ s ∈ [CONNECTIONS_COUNTER_PREFIX, COUNTER_SEG], SegOk s := by
    intro s hs
    simp only [List.mem_cons, List.not_mem_nil, or_false] at hs
    rcases hs with rfl | rfl
    exacts [by decide,
      by decide]
  rw [connection_counter_key, expect_ibc_key_intercalate _ (by simp) hss]
  rfl

theorem channel_counter_key_eq :
    channel_counter_key =
      ⟨[DbKeySeg.AddressSeg ibcAddress,
        DbKeySeg.StringSeg CHANNELS_COUNTER_PREFIX,
        DbKeySeg.StringSeg COUNTER_SEG]⟩ := by
  have hss : ∀ s ∈ [CHANNELS_COUNTER_PREFIX, COUNTER_SEG], SegOk s := by
    intro s hs
    simp only [List.mem_cons, List.not_mem_nil, or_false] at hs
    rcases hs with rfl | rfl
    exacts [by decide,
      by decide]
  rw [channel_counter_key, expect_ibc_key_intercalate _ (by simp) hss]
  rfl

theorem client_state_key_eq (c : ClientId) :
    client_state_key c =
      ⟨[DbKeySeg.AddressSeg ibcAddress,
        DbKeySeg.StringSeg ("clients".toList),
        DbKeySeg.StringSeg c.id,
        DbKeySeg.StringSeg ("clientState".toList)]⟩ := by
  have hss : ∀ s ∈ ["clients".toList, c.id, "clientState".toList], SegOk s := by
    intro s hs
    simp only [List.mem_cons, List.not_mem_nil, or_false] at hs
    rcases hs with rfl | rfl | rfl
    exacts [by decide,
      segOk_of_IdValid c.valid,
      by decide]
  rw [client_state_key, expect_ibc_key_intercalate _ (by simp) hss]
  rfl

theorem consensus_state_key_eq (c : ClientId) (h : Height) :
    consensus_state_key c h =
      ⟨[DbKeySeg.AddressSeg ibcAddress,
        DbKeySeg.StringSeg ("clients".toList),
        DbKeySeg.StringSeg c.id,
        DbKeySeg.StringSeg ("consensusStates".toList),
        DbKeySeg.StringSeg (heightRenderRaw h.revision_number h.revision_height)]⟩ := by
  have hss : ∀ s ∈ ["clients".toList, c.id, "consensusStates".toList, heightRenderRaw h.revision_number h.revision_height], SegOk s := by
    intro s hs
    simp only [List.mem_cons, List.not_mem_nil, or_false] at hs
    rcases hs with rfl | rfl | rfl | rfl
    exacts [by decide,
      segOk_of_IdValid c.valid,
      by decide,
      segOk_heightRenderRaw _ _]
  rw [consensus_state_key, consensusStatePathRaw,
    expect_ibc_key_intercalate _ (by simp) hss]
  rfl

theorem connection_key_eq (cn : ConnectionId) :
    connection_key cn =
      ⟨[DbKeySeg.AddressSeg ibcAddress,
        DbKeySeg.StringSeg ("connections".toList),
        DbKeySeg.StringSeg cn.id]⟩ := by
  have hss : ∀ s ∈ ["connections".toList, cn.id], SegOk s := by
    intro s hs
    simp only [List.mem_cons, List.not_mem_nil, or_false] at hs
    rcases hs with rfl | rfl
    exacts [by decide,
      segOk_of_IdValid cn.valid]
  rw [connection_key, expect_ibc_key_intercalate _ (by simp) hss]
  rfl

theorem channel_key_eq (p : PortId) (ch : ChannelId) :
    channel_key p ch =
      ⟨[DbKeySeg.AddressSeg ibcAddress,
        DbKeySeg.StringSeg ("channelEnds".toList),
        DbKeySeg.StringSeg ("ports".toList),
        DbKeySeg.StringSeg p.id,
        DbKeySeg.StringSeg ("channels".toList),
        DbKeySeg.StringSeg ch.id]⟩ := by
  have hss : ∀ s ∈ ["channelEnds".toList, "ports".toList, p.id, "channels".toList, ch.id], SegOk s := by
    intro s hs
    simp only [List.mem_cons, List.not_mem_nil, or_false] at hs
    rcases hs with rfl | rfl | rfl | rfl | rfl
    exacts [by decide,
      by decide,
      segOk_of_IdValid p.valid,
      by decide,
      segOk_of_IdValid ch.valid]
  rw [channel_key, expect_ibc_key_intercalate _ (by simp) hss]
  rfl

theorem client_connections_key_eq (c : ClientId) :
    client_connections_key c =
      ⟨[DbKeySeg.AddressSeg ibcAddress,
        DbKeySeg.StringSeg ("clients".toList),
        DbKeySeg.StringSeg c.id,
        DbKeySeg.StringSeg ("connections".toList)]⟩ := by
  have hss : ∀ s ∈ ["clients".toList, c.id, "connections".toList], SegOk s := by
    intro s hs
    simp only [List.mem_cons, List.not_mem_nil, or_false] at hs
    rcases hs with rfl | rfl | rfl
    exacts [by decide,
      segOk_of_IdValid c.valid,
      by decide]
  rw [client_connections_key, expect_ibc_key_intercalate _ (by simp) hss]
  rfl

theorem port_key_eq (p : PortId) :
    port_key p =
      ⟨[DbKeySeg.AddressSeg ibcAddress,
        DbKeySeg.StringSeg ("ports".toList),
        DbKeySeg.StringSeg p.id]⟩ := by
  have hss : ∀ s ∈ ["ports".toList, p.id], SegOk s := by
    intro s hs
    simp only [List.mem_cons, List.not_mem_nil, or_false] at hs
    rcases hs with rfl | rfl
    exacts [by decide,
      segOk_of_IdValid p.valid]
  rw [port_key, expect_ibc_key_intercalate _ (by simp) hss]
  rfl

theorem next_sequence_send_key_eq (p : PortId) (ch : ChannelId) :
    next_sequence_send_key p ch =
      ⟨[DbKeySeg.AddressSeg ibcAddress,
        DbKeySeg.StringSeg ("nextSequenceSend".toList),
        DbKeySeg.StringSeg ("ports".toList),
        DbKeySeg.StringSeg p.id,
        DbKeySeg.StringSeg ("channels".toList),
        DbKeySeg.StringSeg ch.id]⟩ := by
  have hss : ∀ s ∈ ["nextSequenceSend".toList, "ports".toList, p.id, "channels".toList, ch.id], SegOk s := by
    intro s hs
    simp only [List.mem_cons, List.not_mem_nil, or_false] at hs
    rcases hs with rfl | rfl | rfl | rfl | rfl
    exacts [by decide,
      by decide,
      segOk_of_IdValid p.valid,
      by decide,
      segOk_of_IdValid ch.valid]
  rw [next_sequence_send_key, expect_ibc_key_intercalate _ (by simp) hss]
  rfl

theorem next_sequence_recv_key_eq (p : PortId) (ch : ChannelId) :
    next_sequence_recv_key p ch =
      ⟨[DbKeySeg.AddressSeg ibcAddress,
        DbKeySeg.StringSeg ("nextSequenceRecv".toList),
        DbKeySeg.StringSeg ("ports".toList),
        DbKeySeg.StringSeg p.id,
        DbKeySeg.StringSeg ("channels".toList),
        DbKeySeg.StringSeg ch.id]⟩ := by
  have hss : ∀ s ∈ ["nextSequenceRecv".toList, "ports".toList, p.id, "channels".toList, ch.id], SegOk s := by
    intro s hs
    simp only [List.mem_cons, List.not_mem_nil, or_false] at hs
    rcases hs with rfl | rfl | rfl | rfl | rfl
    exacts [by decide,
      by decide,
      segOk_of_IdValid p.valid,
      by decide,
      segOk_of_IdValid ch.valid]
  rw [next_sequence_recv_key, expect_ibc_key_intercalate _ (by simp) hss]
  rfl

theorem next_sequence_ack_key_eq (p : PortId) (ch : ChannelId) :
    next_sequence_ack_key p ch =
      ⟨[DbKeySeg.AddressSeg ibcAddress,
        DbKeySeg.StringSeg ("nextSequenceAck".toList),
        DbKeySeg.StringSeg ("ports".toList),
        DbKeySeg.StringSeg p.id,
        DbKeySeg.StringSeg ("channels".toList),
        DbKeySeg.StringSeg ch.id]⟩ := by
  have hss : ∀ s ∈ ["nextSequenceAck".toList, "ports".toList, p.id, "channels".toList, ch.id], SegOk s := by
    intro s hs
    simp only [List.mem_cons, List.not_mem_nil, or_false] at hs
    rcases hs with rfl | rfl | rfl | rfl | rfl
    exacts [by decide,
      by decide,
      segOk_of_IdValid p.valid,
      by decide,
      segOk_of_IdValid ch.valid]
  rw [next_sequence_ack_key, expect_ibc_key_intercalate _ (by simp) hss]
  rfl

theorem commitment_key_eq (p : PortId) (ch : ChannelId) (sq : Sequence) :
    commitment_key p ch sq =
      ⟨[DbKeySeg.AddressSeg ibcAddress,
        DbKeySeg.StringSeg ("commitments".toList),
        DbKeySeg.StringSeg ("ports".toList),
        DbKeySeg.StringSeg p.id,
        DbKeySeg.StringSeg ("channels".toList),
        DbKeySeg.StringSeg ch.id,
        DbKeySeg.StringSeg ("sequences".toList),
        DbKeySeg.StringSeg sq.render]⟩ := by
  have hss : ∀ s ∈ ["commitments".toList, "ports".toList, p.id, "channels".toList, ch.id, "sequences".toList, sq.render], SegOk s := by
    intro s hs
    simp only [List.mem_cons, List.not_mem_nil, or_false] at hs
    rcases hs with rfl | rfl | rfl | rfl | rfl | rfl | rfl
    exacts [by decide,
      by decide,
      segOk_of_IdValid p.valid,
      by decide,
      segOk_of_IdValid ch.valid,
      by decide,
      segOk_seqRender sq]
  rw [commitment_key, expect_ibc_key_intercalate _ (by simp) hss]
  rfl

theorem receipt_key_eq (p : PortId) (ch : ChannelId) (sq : Sequence) :
    receipt_key p ch sq =
      ⟨[DbKeySeg.AddressSeg ibcAddress,
        DbKeySeg.StringSeg ("receipts".toList),
        DbKeySeg.StringSeg ("ports".toList),
        DbKeySeg.StringSeg p.id,
        DbKeySeg.StringSeg ("channels".toList),
        DbKeySeg.StringSeg ch.id,
        DbKeySeg.StringSeg ("sequences".toList),
        DbKeySeg.StringSeg sq.render]⟩ := by
  have hss : ∀ s ∈ ["receipts".toList, "ports".toList, p.id, "channels".toList, ch.id, "sequences".toList, sq.render], SegOk s := by
    intro s hs
    simp only [List.mem_cons, List.not_mem_nil, or_false] at hs
    rcases hs with rfl | rfl | rfl | rfl | rfl | rfl | rfl
    exacts [by decide,
      by decide,
      segOk_of_IdValid p.valid,
      by decide,
      segOk_of_IdValid ch.valid,
      by decide,
      segOk_seqRender sq]
  rw [receipt_key, expect_ibc_key_intercalate _ (by simp) hss]
  rfl

theorem ack_key_eq (p : PortId) (ch : ChannelId) (sq : Sequence) :
    ack_key p ch sq =
      ⟨[DbKeySeg.AddressSeg ibcAddress,
        DbKeySeg.StringSeg ("acks".toList),
        DbKeySeg.StringSeg ("ports".toList),
        DbKeySeg.StringSeg p.id,
        DbKeySeg.StringSeg ("channels".toList),
        DbKeySeg.StringSeg ch.id,
        DbKeySeg.StringSeg ("sequences".toList),
        DbKeySeg.StringSeg sq.render]⟩ := by
  have hss : ∀ s ∈ ["acks".toList, "ports".toList, p.id, "channels".toList, ch.id, "sequences".toList, sq.render], SegOk s := by
    intro s hs
    simp only [List.mem_cons, List.not_mem_nil, or_false] at hs
    rcases hs with rfl | rfl | rfl | rfl | rfl | rfl | rfl
    exacts [by decide,
      by decide,
      segOk_of_IdValid p.valid,
      by decide,
      segOk_of_IdValid ch.valid,
      by decide,
      segOk_seqRender sq]
  rw [ack_key, expect_ibc_key_intercalate _ (by simp) hss]
  rfl

theorem client_update_timestamp_key_eq (c : ClientId) :
    client_update_timestamp_key c =
      ⟨[DbKeySeg.AddressSeg ibcAddress,
        DbKeySeg.StringSeg ("clients".toList),
        DbKeySeg.StringSeg c.id,
        DbKeySeg.StringSeg ("update_timestamp".toList)]⟩ := by
  have hss : ∀ s ∈ ["clients".toList, c.id, "update_timestamp".toList], SegOk s := by
    intro s hs
    simp only [List.mem_cons, List.not_mem_nil, or_false] at hs
    rcases hs with rfl | rfl | rfl
    exacts [by decide,
      segOk_of_IdValid c.valid,
      by decide]
  rw [client_update_timestamp_key, expect_ibc_key_intercalate _ (by simp) hss]
  rfl

theorem client_update_height_key_eq (c : ClientId) :
    client_update_height_key c =
      ⟨[DbKeySeg.AddressSeg ibcAddress,
        DbKeySeg.StringSeg ("clients".toList),
        DbKeySeg.StringSeg c.id,
        DbKeySeg.StringSeg ("update_height".toList)]⟩ := by
  have hss : ∀ s ∈ ["clients".toList, c.id, "update_height".toList], SegOk s := by
    intro s hs
    simp only [List.mem_cons, List.not_mem_nil, or_false] at hs
    rcases hs with rfl | rfl | rfl
    exacts [by decide,
      segOk_of_IdValid c.valid,
      by decide]
  rw [client_update_height_key, expect_ibc_key_intercalate _ (by simp) hss]
  rfl

theorem Key.push_some (k : Key) (s : Str) (h : SEP ∉ s) :
    k.push s = some ⟨k.segments ++ [DbKeySeg.StringSeg s]⟩ := by
  rw [Key.push, if_neg h]

theorem intercalate_pair (a b : Str) :
    List.intercalate [SEP] [a, b] = a ++ SEP :: b := by
  simp [List.intercalate]

theorem params_key_eq :
    params_key = ⟨[DbKeySeg.AddressSeg ibcAddress, DbKeySeg.StringSeg PARAMS]⟩ := by
  rw [params_key, Key.push_some _ _ (by decide)]
  rfl

theorem mint_limit_key_eq (token : Address) :
    mint_limit_key token =
      ⟨[DbKeySeg.AddressSeg ibcAddress, DbKeySeg.StringSeg MINT_LIMIT,
        DbKeySeg.StringSeg (addressRender token)]⟩ := by
  rw [mint_limit_key, Key.push_some _ _ (by decide), Option.some_bind,
    Key.push_some _ _ (sep_not_mem_addressRender token)]
  rfl

theorem mint_amount_key_eq (token : Address) :
    mint_amount_key token =
      ⟨[DbKeySeg.AddressSeg ibcAddress, DbKeySeg.StringSeg MINT,
        DbKeySeg.StringSeg (addressRender token)]⟩ := by
  rw [mint_amount_key, Key.push_some _ _ (by decide), Option.some_bind,
    Key.push_some _ _ (sep_not_mem_addressRender token)]
  rfl

theorem throughput_limit_key_eq (token : Address) :
    throughput_limit_key token =
      ⟨[DbKeySeg.AddressSeg ibcAddress, DbKeySeg.StringSeg THROUGHPUT_LIMIT,
        DbKeySeg.StringSeg (addressRender token)]⟩ := by
  rw [throughput_limit_key, Key.push_some _ _ (by decide), Option.some_bind,
    Key.push_some _ _ (sep_not_mem_addressRender token)]
  rfl

theorem deposit_prefix_eq :
    deposit_prefix =
      ⟨[DbKeySeg.AddressSeg ibcAddress, DbKeySeg.StringSeg DEPOSIT]⟩ := by
  rw [ deposit_prefix, Key.push_some _ _ (by decide)]
  rfl

theorem withdraw_prefix_eq :
    withdraw_prefix =
      ⟨[DbKeySeg.AddressSeg ibcAddress, DbKeySeg.StringSeg WITHDRAW]⟩ := by
  rw [ withdraw_prefix, Key.push_some _ _ (by decide)]
  rfl

theorem deposit_key_eq (token : Address) :
    deposit_key token =
      ⟨[DbKeySeg.AddressSeg ibcAddress, DbKeySeg.StringSeg DEPOSIT,
        DbKeySeg.StringSeg (addressRender token)]⟩ := by
  rw [deposit_key, deposit_prefix_eq,
    Key.push_some _ _ (sep_not_mem_addressRender token)]
  rfl

theorem withdraw_key_eq (token : Address) :
    withdraw_key token =
      ⟨[DbKeySeg.AddressSeg ibcAddress, DbKeySeg.StringSeg WITHDRAW,
        DbKeySeg.StringSeg (addressRender token)]⟩ := by
  rw [withdraw_key, withdraw_prefix_eq,
    Key.push_some _ _ (sep_not_mem_addressRender token)]
  rfl

theorem expectKey_some (k : Key) : expectKey (some k) = k := rfl

theorem ibc_trace_key_prefix_none_eq :
    ibc_trace_key_prefix none =
      ⟨[DbKeySeg.AddressSeg ibcAddress, DbKeySeg.StringSeg TRACE]⟩ := by
  show expectKey ((Key.fromAddress ibcAddress).push TRACE) = _
  rw [Key.push_some _ _ (by decide : SEP ∉ TRACE), expectKey_some]
  rfl

theorem ibc_trace_key_prefix_some_eq (addr : Str) (h : SEP ∉ addr) :
    ibc_trace_key_prefix (some addr) =
      ⟨[DbKeySeg.AddressSeg ibcAddress, DbKeySeg.StringSeg TRACE,
        DbKeySeg.StringSeg addr]⟩ := by
  show expectKey
    ((expectKey ((Key.fromAddress ibcAddress).push TRACE)).push addr) = _
  rw [Key.push_some _ _ (by decide : SEP ∉ TRACE), expectKey_some,
    Key.push_some _ _ h, expectKey_some]
  rfl

theorem ibc_trace_key_eq (addr token_hash : Str) (h1 : SEP ∉ addr)
    (h2 : SEP ∉ token_hash) :
    ibc_trace_key addr token_hash =
      ⟨[DbKeySeg.AddressSeg ibcAddress, DbKeySeg.StringSeg TRACE,
        DbKeySeg.StringSeg addr, DbKeySeg.StringSeg token_hash]⟩ := by
  rw [ibc_trace_key, ibc_trace_key_prefix_some_eq addr h1,
    Key.push_some _ _ h2]
  rfl

theorem nft_class_key_eq (class_id : Str) :
    nft_class_key class_id =
      ⟨[DbKeySeg.AddressSeg ibcAddress, DbKeySeg.StringSeg NFT_CLASS,
        DbKeySeg.StringSeg (addressRender (ibc_token class_id))]⟩ := by
  have hss : ∀ s ∈ [NFT_CLASS, addressRender (ibc_token class_id)], SegOk s := by
    intro s hs
    simp only [List.mem_cons, List.not_mem_nil, or_false] at hs
    rcases hs with rfl | rfl
    exacts [by decide, segOk_addressRender _]
  rw [nft_class_key, ← intercalate_pair,
    expect_ibc_key_intercalate _ (by simp) hss]
  rfl

theorem nft_metadata_key_eq (class_id token_id : Str) :
    nft_metadata_key class_id token_id =
      ⟨[DbKeySeg.AddressSeg ibcAddress, DbKeySeg.StringSeg NFT_METADATA,
        DbKeySeg.StringSeg (addressRender (ibc_token_for_nft class_id token_id))]⟩ := by
  have hss : ∀ s ∈ [NFT_METADATA,
      addressRender (ibc_token_for_nft class_id token_id)], SegOk s := by
    intro s hs
    simp only [List.mem_cons, List.not_mem_nil, or_false] at hs
    rcases hs with rfl | rfl
    exacts [by decide, segOk_addressRender _]
  rw [nft_metadata_key, ← intercalate_pair,
    expect_ibc_key_intercalate _ (by simp) hss]
  rfl

/-- A variant of `height_from_str_render` phrased on the raw rendering
used inside the consensus-state path. -/
theorem height_from_str_renderRaw (h : Height) :
    Height.from_str (heightRenderRaw h.revision_number h.revision_height) =
      some h := height_from_str_render h

/-- C1: decoding an encoded key recovers the original identifier: this
holds for client-state keys (`client_id`), connection keys
(`connection_id`), the four channel-scoped keys (`port_channel_id`),
the three packet keys (`port_channel_sequence_id`), port keys
(`port_id`), and consensus-state keys (`consensus_height`), for every
valid identifier, including boundary values such as sequence `0`. -/
theorem decode_encode_roundtrip (c : ClientId) (cn : ConnectionId)
    (p : PortId) (ch : ChannelId) (sq : Sequence) (h : Height) :
    client_id (client_state_key c) = Except.ok c ∧
      connection_id (connection_key cn) = Except.ok cn ∧
      port_channel_id (channel_key p ch) = Except.ok (p, ch) ∧
      port_channel_id (next_sequence_send_key p ch) = Except.ok (p, ch) ∧
      port_channel_id (next_sequence_recv_key p ch) = Except.ok (p, ch) ∧
      port_channel_id (next_sequence_ack_key p ch) = Except.ok (p, ch) ∧
      port_channel_sequence_id (commitment_key p ch sq) = Except.ok (p, ch, sq) ∧
      port_channel_sequence_id (receipt_key p ch sq) = Except.ok (p, ch, sq) ∧
      port_channel_sequence_id (ack_key p ch sq) = Except.ok (p, ch, sq) ∧
      consensus_height (consensus_state_key c h) = Except.ok h ∧
      port_id (port_key p) = Except.ok p := by
  refine ⟨?_, ?_, ?_, ?_, ?_, ?_, ?_, ?_, ?_, ?_, ?_⟩
  · rw [client_state_key_eq c]
    simp [client_id, clientId_from_str_id]
  · rw [connection_key_eq cn]
    simp [connection_id, connectionId_from_str_id]
  · rw [channel_key_eq p ch]
    simp [port_channel_id, portId_from_str_id, channelId_from_str_id]
  · rw [next_sequence_send_key_eq p ch]
    simp [port_channel_id, portId_from_str_id, channelId_from_str_id]
  · rw [next_sequence_recv_key_eq p ch]
    simp [port_channel_id, portId_from_str_id, channelId_from_str_id]
  · rw [next_sequence_ack_key_eq p ch]
    simp [port_channel_id, portId_from_str_id, channelId_from_str_id]
  · rw [commitment_key_eq p ch sq]
    simp [port_channel_sequence_id, portId_from_str_id, channelId_from_str_id, sequence_from_str_render]
  · rw [receipt_key_eq p ch sq]
    simp [port_channel_sequence_id, portId_from_str_id, channelId_from_str_id, sequence_from_str_render]
  · rw [ack_key_eq p ch sq]
    simp [port_channel_sequence_id, portId_from_str_id, channelId_from_str_id, sequence_from_str_render]
  · rw [consensus_state_key_eq c h]
    simp [consensus_height, height_from_str_renderRaw]
  · rw [port_key_eq p]
    simp [port_id, portId_from_str_id]

/-- C1 witness: the round trips at concrete identifiers, with the
boundary sequence number `0`. -/
theorem decode_encode_roundtrip_witness :
    client_id (client_state_key exClientId) = Except.ok exClientId ∧
      connection_id (connection_key exConnectionId) = Except.ok exConnectionId ∧
      port_channel_id (channel_key exPortId exChannelId) = Except.ok (exPortId, exChannelId) ∧
      port_channel_id (next_sequence_send_key exPortId exChannelId) = Except.ok (exPortId, exChannelId) ∧
      port_channel_id (next_sequence_recv_key exPortId exChannelId) = Except.ok (exPortId, exChannelId) ∧
      port_channel_id (next_sequence_ack_key exPortId exChannelId) = Except.ok (exPortId, exChannelId) ∧
      port_channel_sequence_id (commitment_key exPortId exChannelId exSequence) = Except.ok (exPortId, exChannelId, exSequence) ∧
      port_channel_sequence_id (receipt_key exPortId exChannelId exSequence) = Except.ok (exPortId, exChannelId, exSequence) ∧
      port_channel_sequence_id (ack_key exPortId exChannelId exSequence) = Except.ok (exPortId, exChannelId, exSequence) ∧
      consensus_height (consensus_state_key exClientId exHeight) = Except.ok exHeight ∧
      port_id (port_key exPortId) = Except.ok exPortId :=
  decode_encode_roundtrip exClientId exConnectionId exPortId exChannelId
    exSequence exHeight

/-- C2 counterexample: the claim says the decoder of one entity type
fails with `InvalidKey` on any other entity type's key, but `client_id`
(the client-state decoder) succeeds on a client-connections key,
because its pattern ignores trailing segments. -/
theorem client_id_accepts_foreign_key :
    client_id (client_connections_key exClientId) = Except.ok exClientId := by
  rw [client_connections_key_eq exClientId]
  simp [client_id, clientId_from_str_id]

/-- C2 amended: the full cross-decoding matrix.  The exact-shape
decoders (`connection_id`, `consensus_height`, `port_channel_id`,
`port_channel_sequence_id`) fail with `InvalidKey` on every key encoded
for an entity type outside their own segment shape; the two prefix
decoders `client_id` and `port_id` match only the three leading
segments and ignore the rest, so `client_id` also accepts (and decodes
the client ID from) consensus-state, client-connections, and
client-update keys, while failing on every key outside the `clients`
namespace, and `port_id` fails on every listed key outside the `ports`
namespace; the four channel-scoped types share `port_channel_id`, and
the three packet types share `port_channel_sequence_id` (those in-group
acceptances are the round trips of C1). -/
theorem decoder_matrix_amended (c : ClientId) (cn : ConnectionId)
    (p : PortId) (ch : ChannelId) (sq : Sequence) (h : Height) :
    client_id (client_state_key c) = Except.ok c ∧
      client_id (consensus_state_key c h) = Except.ok c ∧
      client_id (client_connections_key c) = Except.ok c ∧
      client_id (client_update_timestamp_key c) = Except.ok c ∧
      client_id (client_update_height_key c) = Except.ok c ∧
      client_id (connection_key cn) = Except.error Error.InvalidKey ∧
      client_id (port_key p) = Except.error Error.InvalidKey ∧
      client_id (channel_key p ch) = Except.error Error.InvalidKey ∧
      client_id (next_sequence_send_key p ch) = Except.error Error.InvalidKey ∧
      client_id (next_sequence_recv_key p ch) = Except.error Error.InvalidKey ∧
      client_id (next_sequence_ack_key p ch) = Except.error Error.InvalidKey ∧
      client_id (commitment_key p ch sq) = Except.error Error.InvalidKey ∧
      client_id (receipt_key p ch sq) = Except.error Error.InvalidKey ∧
      client_id (ack_key p ch sq) = Except.error Error.InvalidKey ∧
      consensus_height (client_state_key c) = Except.error Error.InvalidKey ∧
      consensus_height (client_connections_key c) = Except.error Error.InvalidKey ∧
      consensus_height (client_update_timestamp_key c) = Except.error Error.InvalidKey ∧
      consensus_height (client_update_height_key c) = Except.error Error.InvalidKey ∧
      consensus_height (connection_key cn) = Except.error Error.InvalidKey ∧
      consensus_height (port_key p) = Except.error Error.InvalidKey ∧
      consensus_height (channel_key p ch) = Except.error Error.InvalidKey ∧
      consensus_height (next_sequence_send_key p ch) = Except.error Error.InvalidKey ∧
      consensus_height (next_sequence_recv_key p ch) = Except.error Error.InvalidKey ∧
      consensus_height (next_sequence_ack_key p ch) = Except.error Error.InvalidKey ∧
      consensus_height (commitment_key p ch sq) = Except.error Error.InvalidKey ∧
      consensus_height (receipt_key p ch sq) = Except.error Error.InvalidKey ∧
      consensus_height (ack_key p ch sq) = Except.error Error.InvalidKey ∧
      connection_id (client_state_key c) = Except.error Error.InvalidKey ∧
      connection_id (consensus_state_key c h) = Except.error Error.InvalidKey ∧
      connection_id (client_connections_key c) = Except.error Error.InvalidKey ∧
      connection_id (client_update_timestamp_key c) = Except.error Error.InvalidKey ∧
      connection_id (client_update_height_key c) = Except.error Error.InvalidKey ∧
      connection_id (port_key p) = Except.error Error.InvalidKey ∧
      connection_id (channel_key p ch) = Except.error Error.InvalidKey ∧
      connection_id (next_sequence_send_key p ch) = Except.error Error.InvalidKey ∧
      connection_id (next_sequence_recv_key p ch) = Except.error Error.InvalidKey ∧
      connection_id (next_sequence_ack_key p ch) = Except.error Error.InvalidKey ∧
      connection_id (commitment_key p ch sq) = Except.error Error.InvalidKey ∧
      connection_id (receipt_key p ch sq) = Except.error Error.InvalidKey ∧
      connection_id (ack_key p ch sq) = Except.error Error.InvalidKey ∧
      port_channel_id (client_state_key c) = Except.error Error.InvalidKey ∧
      port_channel_id (consensus_state_key c h) = Except.error Error.InvalidKey ∧
      port_channel_id (client_connections_key c) = Except.error Error.InvalidKey ∧
      port_channel_id (client_update_timestamp_key c) = Except.error Error.InvalidKey ∧
      port_channel_id (client_update_height_key c) = Except.error Error.InvalidKey ∧
      port_channel_id (connection_key cn) = Except.error Error.InvalidKey ∧
      port_channel_id (port_key p) = Except.error Error.InvalidKey ∧
      port_channel_id (commitment_key p ch sq) = Except.error Error.InvalidKey ∧
      port_channel_id (receipt_key p ch sq) = Except.error Error.InvalidKey ∧
      port_channel_id (ack_key p ch sq) = Except.error Error.InvalidKey ∧
      port_channel_sequence_id (client_state_key c) = Except.error Error.InvalidKey ∧
      port_channel_sequence_id (consensus_state_key c h) = Except.error Error.InvalidKey ∧
      port_channel_sequence_id (client_connections_key c) = Except.error Error.InvalidKey ∧
      port_channel_sequence_id (client_update_timestamp_key c) = Except.error Error.InvalidKey ∧
      port_channel_sequence_id (client_update_height_key c) = Except.error Error.InvalidKey ∧
      port_channel_sequence_id (connection_key cn) = Except.error Error.InvalidKey ∧
      port_channel_sequence_id (port_key p) = Except.error Error.InvalidKey ∧
      port_channel_sequence_id (channel_key p ch) = Except.error Error.InvalidKey ∧
      port_channel_sequence_id (next_sequence_send_key p ch) = Except.error Error.InvalidKey ∧
      port_channel_sequence_id (next_sequence_recv_key p ch) = Except.error Error.InvalidKey ∧
      port_channel_sequence_id (next_sequence_ack_key p ch) = Except.error Error.InvalidKey ∧
      port_id (client_state_key c) = Except.error Error.InvalidKey ∧
      port_id (consensus_state_key c h) = Except.error Error.InvalidKey ∧
      port_id (client_connections_key c) = Except.error Error.InvalidKey ∧
      port_id (client_update_timestamp_key c) = Except.error Error.InvalidKey ∧
      port_id (client_update_height_key c) = Except.error Error.InvalidKey ∧
      port_id (connection_key cn) = Except.error Error.InvalidKey ∧
      port_id (channel_key p ch) = Except.error Error.InvalidKey ∧
      port_id (next_sequence_send_key p ch) = Except.error Error.InvalidKey ∧
      port_id (next_sequence_recv_key p ch) = Except.error Error.InvalidKey ∧
      port_id (next_sequence_ack_key p ch) = Except.error Error.InvalidKey ∧
      port_id (commitment_key p ch sq) = Except.error Error.InvalidKey ∧
      port_id (receipt_key p ch sq) = Except.error Error.InvalidKey ∧
      port_id (ack_key p ch sq) = Except.error Error.InvalidKey := by
  refine ⟨?_, ?_, ?_, ?_, ?_, ?_, ?_, ?_, ?_, ?_, ?_, ?_, ?_, ?_, ?_, ?_, ?_, ?_, ?_, ?_, ?_, ?_, ?_, ?_, ?_, ?_, ?_, ?_, ?_, ?_, ?_, ?_, ?_, ?_, ?_, ?_, ?_, ?_, ?_, ?_, ?_, ?_, ?_, ?_, ?_, ?_, ?_, ?_, ?_, ?_, ?_, ?_, ?_, ?_, ?_, ?_, ?_, ?_, ?_, ?_, ?_, ?_, ?_, ?_, ?_, ?_, ?_, ?_, ?_, ?_, ?_, ?_, ?_, ?_⟩
  · rw [client_state_key_eq c]
    simp [client_id, clientId_from_str_id]
  · rw [consensus_state_key_eq c h]
    simp [client_id, clientId_from_str_id]
  · rw [client_connections_key_eq c]
    simp [client_id, clientId_from_str_id]
  · rw [client_update_timestamp_key_eq c]
    simp [client_id, clientId_from_str_id]
  · rw [client_update_height_key_eq c]
    simp [client_id, clientId_from_str_id]
  · rw [connection_key_eq cn]
    simp only [client_id]
    rw [if_neg (by decide)]
  · rw [port_key_eq p]
    simp only [client_id]
    rw [if_neg (by decide)]
  · rw [channel_key_eq p ch]
    simp only [client_id]
    rw [if_neg (by decide)]
  · rw [next_sequence_send_key_eq p ch]
    simp only [client_id]
    rw [if_neg (by decide)]
  · rw [next_sequence_recv_key_eq p ch]
    simp only [client_id]
    rw [if_neg (by decide)]
  · rw [next_sequence_ack_key_eq p ch]
    simp only [client_id]
    rw [if_neg (by decide)]
  · rw [commitment_key_eq p ch sq]
    simp only [client_id]
    rw [if_neg (by decide)]
  · rw [receipt_key_eq p ch sq]
    simp only [client_id]
    rw [if_neg (by decide)]
  · rw [ack_key_eq p ch sq]
    simp only [client_id]
    rw [if_neg (by decide)]
  · rw [client_state_key_eq c]
    simp only [consensus_height]
  · rw [client_connections_key_eq c]
    simp only [consensus_height]
  · rw [client_update_timestamp_key_eq c]
    simp only [consensus_height]
  · rw [client_update_height_key_eq c]
    simp only [consensus_height]
  · rw [connection_key_eq cn]
    simp only [consensus_height]
  · rw [port_key_eq p]
    simp only [consensus_height]
  · rw [channel_key_eq p ch]
    simp only [consensus_height]
  · rw [next_sequence_send_key_eq p ch]
    simp only [consensus_height]
  · rw [next_sequence_recv_key_eq p ch]
    simp only [consensus_height]
  · rw [next_sequence_ack_key_eq p ch]
    simp only [consensus_height]
  · rw [commitment_key_eq p ch sq]
    simp only [consensus_height]
  · rw [receipt_key_eq p ch sq]
    simp only [consensus_height]
  · rw [ack_key_eq p ch sq]
    simp only [consensus_height]
  · rw [client_state_key_eq c]
    simp only [connection_id]
  · rw [consensus_state_key_eq c h]
    simp only [connection_id]
  · rw [client_connections_key_eq c]
    simp only [connection_id]
  · rw [client_update_timestamp_key_eq c]
    simp only [connection_id]
  · rw [client_update_height_key_eq c]
    simp only [connection_id]
  · rw [port_key_eq p]
    simp only [connection_id]
    rw [if_neg (by decide)]
  · rw [channel_key_eq p ch]
    simp only [connection_id]
  · rw [next_sequence_send_key_eq p ch]
    simp only [connection_id]
  · rw [next_sequence_recv_key_eq p ch]
    simp only [connection_id]
  · rw [next_sequence_ack_key_eq p ch]
    simp only [connection_id]
  · rw [commitment_key_eq p ch sq]
    simp only [connection_id]
  · rw [receipt_key_eq p ch sq]
    simp only [connection_id]
  · rw [ack_key_eq p ch sq]
    simp only [connection_id]
  · rw [client_state_key_eq c]
    simp only [port_channel_id]
  · rw [consensus_state_key_eq c h]
    simp only [port_channel_id]
  · rw [client_connections_key_eq c]
    simp only [port_channel_id]
  · rw [client_update_timestamp_key_eq c]
    simp only [port_channel_id]
  · rw [client_update_height_key_eq c]
    simp only [port_channel_id]
  · rw [connection_key_eq cn]
    simp only [port_channel_id]
  · rw [port_key_eq p]
    simp only [port_channel_id]
  · rw [commitment_key_eq p ch sq]
    simp only [port_channel_id]
  · rw [receipt_key_eq p ch sq]
    simp only [port_channel_id]
  · rw [ack_key_eq p ch sq]
    simp only [port_channel_id]
  · rw [client_state_key_eq c]
    simp only [port_channel_sequence_id]
  · rw [consensus_state_key_eq c h]
    simp only [port_channel_sequence_id]
  · rw [client_connections_key_eq c]
    simp only [port_channel_sequence_id]
  · rw [client_update_timestamp_key_eq c]
    simp only [port_channel_sequence_id]
  · rw [client_update_height_key_eq c]
    simp only [port_channel_sequence_id]
  · rw [connection_key_eq cn]
    simp only [port_channel_sequence_id]
  · rw [port_key_eq p]
    simp only [port_channel_sequence_id]
  · rw [channel_key_eq p ch]
    simp only [port_channel_sequence_id]
  · rw [next_sequence_send_key_eq p ch]
    simp only [port_channel_sequence_id]
  · rw [next_sequence_recv_key_eq p ch]
    simp only [port_channel_sequence_id]
  · rw [next_sequence_ack_key_eq p ch]
    simp only [port_channel_sequence_id]
  · rw [client_state_key_eq c]
    simp only [port_id]
    rw [if_neg (by decide)]
  · rw [consensus_state_key_eq c h]
    simp only [port_id]
    rw [if_neg (by decide)]
  · rw [client_connections_key_eq c]
    simp only [port_id]
    rw [if_neg (by decide)]
  · rw [client_update_timestamp_key_eq c]
    simp only [port_id]
    rw [if_neg (by decide)]
  · rw [client_update_height_key_eq c]
    simp only [port_id]
    rw [if_neg (by decide)]
  · rw [connection_key_eq cn]
    simp only [port_id]
    rw [if_neg (by decide)]
  · rw [channel_key_eq p ch]
    simp only [port_id]
    rw [if_neg (by decide)]
  · rw [next_sequence_send_key_eq p ch]
    simp only [port_id]
    rw [if_neg (by decide)]
  · rw [next_sequence_recv_key_eq p ch]
    simp only [port_id]
    rw [if_neg (by decide)]
  · rw [next_sequence_ack_key_eq p ch]
    simp only [port_id]
    rw [if_neg (by decide)]
  · rw [commitment_key_eq p ch sq]
    simp only [port_id]
    rw [if_neg (by decide)]
  · rw [receipt_key_eq p ch sq]
    simp only [port_id]
    rw [if_neg (by decide)]
  · rw [ack_key_eq p ch sq]
    simp only [port_id]
    rw [if_neg (by decide)]

/-- C2 amended, witness: the matrix at concrete identifiers. -/
theorem decoder_matrix_amended_witness :
    client_id (client_state_key exClientId) = Except.ok exClientId ∧
      client_id (consensus_state_key exClientId exHeight) = Except.ok exClientId ∧
      client_id (client_connections_key exClientId) = Except.ok exClientId ∧
      client_id (client_update_timestamp_key exClientId) = Except.ok exClientId ∧
      client_id (client_update_height_key exClientId) = Except.ok exClientId ∧
      client_id (connection_key exConnectionId) = Except.error Error.InvalidKey ∧
      client_id (port_key exPortId) = Except.error Error.InvalidKey ∧
      client_id (channel_key exPortId exChannelId) = Except.error Error.InvalidKey ∧
      client_id (next_sequence_send_key exPortId exChannelId) = Except.error Error.InvalidKey ∧
      client_id (next_sequence_recv_key exPortId exChannelId) = Except.error Error.InvalidKey ∧
      client_id (next_sequence_ack_key exPortId exChannelId) = Except.error Error.InvalidKey ∧
      client_id (commitment_key exPortId exChannelId exSequence) = Except.error Error.InvalidKey ∧
      client_id (receipt_key exPortId exChannelId exSequence) = Except.error Error.InvalidKey ∧
      client_id (ack_key exPortId exChannelId exSequence) = Except.error Error.InvalidKey ∧
      consensus_height (client_state_key exClientId) = Except.error Error.InvalidKey ∧
      consensus_height (client_connections_key exClientId) = Except.error Error.InvalidKey ∧
      consensus_height (client_update_timestamp_key exClientId) = Except.error Error.InvalidKey ∧
      consensus_height (client_update_height_key exClientId) = Except.error Error.InvalidKey ∧
      consensus_height (connection_key exConnectionId) = Except.error Error.InvalidKey ∧
      consensus_height (port_key exPortId) = Except.error Error.InvalidKey ∧
      consensus_height (channel_key exPortId exChannelId) = Except.error Error.InvalidKey ∧
      consensus_height (next_sequence_send_key exPortId exChannelId) = Except.error Error.InvalidKey ∧
      consensus_height (next_sequence_recv_key exPortId exChannelId) = Except.error Error.InvalidKey ∧
      consensus_height (next_sequence_ack_key exPortId exChannelId) = Except.error Error.InvalidKey ∧
      consensus_height (commitment_key exPortId exChannelId exSequence) = Except.error Error.InvalidKey ∧
      consensus_height (receipt_key exPortId exChannelId exSequence) = Except.error Error.InvalidKey ∧
      consensus_height (ack_key exPortId exChannelId exSequence) = Except.error Error.InvalidKey ∧
      connection_id (client_state_key exClientId) = Except.error Error.InvalidKey ∧
      connection_id (consensus_state_key exClientId exHeight) = Except.error Error.InvalidKey ∧
      connection_id (client_connections_key exClientId) = Except.error Error.InvalidKey ∧
      connection_id (client_update_timestamp_key exClientId) = Except.error Error.InvalidKey ∧
      connection_id (client_update_height_key exClientId) = Except.error Error.InvalidKey ∧
      connection_id (port_key exPortId) = Except.error Error.InvalidKey ∧
      connection_id (channel_key exPortId exChannelId) = Except.error Error.InvalidKey ∧
      connection_id (next_sequence_send_key exPortId exChannelId) = Except.error Error.InvalidKey ∧
      connection_id (next_sequence_recv_key exPortId exChannelId) = Except.error Error.InvalidKey ∧
      connection_id (next_sequence_ack_key exPortId exChannelId) = Except.error Error.InvalidKey ∧
      connection_id (commitment_key exPortId exChannelId exSequence) = Except.error Error.InvalidKey ∧
      connection_id (receipt_key exPortId exChannelId exSequence) = Except.error Error.InvalidKey ∧
      connection_id (ack_key exPortId exChannelId exSequence) = Except.error Error.InvalidKey ∧
      port_channel_id (client_state_key exClientId) = Except.error Error.InvalidKey ∧
      port_channel_id (consensus_state_key exClientId exHeight) = Except.error Error.InvalidKey ∧
      port_channel_id (client_connections_key exClientId) = Except.error Error.InvalidKey ∧
      port_channel_id (client_update_timestamp_key exClientId) = Except.error Error.InvalidKey ∧
      port_channel_id (client_update_height_key exClientId) = Except.error Error.InvalidKey ∧
      port_channel_id (connection_key exConnectionId) = Except.error Error.InvalidKey ∧
      port_channel_id (port_key exPortId) = Except.error Error.InvalidKey ∧
      port_channel_id (commitment_key exPortId exChannelId exSequence) = Except.error Error.InvalidKey ∧
      port_channel_id (receipt_key exPortId exChannelId exSequence) = Except.error Error.InvalidKey ∧
      port_channel_id (ack_key exPortId exChannelId exSequence) = Except.error Error.InvalidKey ∧
      port_channel_sequence_id (client_state_key exClientId) = Except.error Error.InvalidKey ∧
      port_channel_sequence_id (consensus_state_key exClientId exHeight) = Except.error Error.InvalidKey ∧
      port_channel_sequence_id (client_connections_key exClientId) = Except.error Error.InvalidKey ∧
      port_channel_sequence_id (client_update_timestamp_key exClientId) = Except.error Error.InvalidKey ∧
      port_channel_sequence_id (client_update_height_key exClientId) = Except.error Error.InvalidKey ∧
      port_channel_sequence_id (connection_key exConnectionId) = Except.error Error.InvalidKey ∧
      port_channel_sequence_id (port_key exPortId) = Except.error Error.InvalidKey ∧
      port_channel_sequence_id (channel_key exPortId exChannelId) = Except.error Error.InvalidKey ∧
      port_channel_sequence_id (next_sequence_send_key exPortId exChannelId) = Except.error Error.InvalidKey ∧
      port_channel_sequence_id (next_sequence_recv_key exPortId exChannelId) = Except.error Error.InvalidKey ∧
      port_channel_sequence_id (next_sequence_ack_key exPortId exChannelId) = Except.error Error.InvalidKey ∧
      port_id (client_state_key exClientId) = Except.error Error.InvalidKey ∧
      port_id (consensus_state_key exClientId exHeight) = Except.error Error.InvalidKey ∧
      port_id (client_connections_key exClientId) = Except.error Error.InvalidKey ∧
      port_id (client_update_timestamp_key exClientId) = Except.error Error.InvalidKey ∧
      port_id (client_update_height_key exClientId) = Except.error Error.InvalidKey ∧
      port_id (connection_key exConnectionId) = Except.error Error.InvalidKey ∧
      port_id (channel_key exPortId exChannelId) = Except.error Error.InvalidKey ∧
      port_id (next_sequence_send_key exPortId exChannelId) = Except.error Error.InvalidKey ∧
      port_id (next_sequence_recv_key exPortId exChannelId) = Except.error Error.InvalidKey ∧
      port_id (next_sequence_ack_key exPortId exChannelId) = Except.error Error.InvalidKey ∧
      port_id (commitment_key exPortId exChannelId exSequence) = Except.error Error.InvalidKey ∧
      port_id (receipt_key exPortId exChannelId exSequence) = Except.error Error.InvalidKey ∧
      port_id (ack_key exPortId exChannelId exSequence) = Except.error Error.InvalidKey :=
  decoder_matrix_amended exClientId exConnectionId exPortId exChannelId
    exSequence exHeight

theorem consensusStatePathRaw_decomp (c : ClientId) :
    consensusStatePathRaw c 0 0 =
      List.intercalate [SEP]
        ["clients".toList, c.id, "consensusStates".toList] ++ "/0-0".toList := by
  simp [consensusStatePathRaw, heightRenderRaw, natRender, SEP,
    List.intercalate, List.intersperse]

theorem stripSuffix_append (x suf : Str) : stripSuffix (x ++ suf) suf = some x := by
  unfold stripSuffix
  have hlen : (x ++ suf).length - suf.length = x.length := by
    simp
  rw [if_neg (by simp), hlen, List.drop_left, if_pos rfl, List.take_left]

theorem consensus_state_prefix_eq (c : ClientId) :
    consensus_state_prefix c =
      ⟨[DbKeySeg.AddressSeg ibcAddress, DbKeySeg.StringSeg ("clients".toList),
        DbKeySeg.StringSeg c.id, DbKeySeg.StringSeg ("consensusStates".toList)]⟩ := by
  have hss : ∀ s ∈ ["clients".toList, c.id, "consensusStates".toList], SegOk s := by
    intro s hs
    simp only [List.mem_cons, List.not_mem_nil, or_false] at hs
    rcases hs with rfl | rfl | rfl
    exacts [by decide, segOk_of_IdValid c.valid, by decide]
  rw [ consensus_state_prefix, consensusStatePathRaw_decomp c, stripSuffix_append,
    Option.getD_some, expect_ibc_key_intercalate _ (by simp) hss]
  rfl

/-- C6: the consensus-state prefix is a strict segment-prefix of every
consensus-state key of the same client, and it is exactly the key
obtained by stripping the literal `/0-0` suffix from the zero-height
consensus-state path and re-parsing it under the IBC namespace. -/
theorem consensus_state_prefix_spec (c : ClientId) (h : Height) :
    (∃ t, t ≠ [] ∧
      (consensus_state_key c h).segments =
        ( consensus_state_prefix c).segments ++ t) ∧
    stripSuffix (consensusStatePathRaw c 0 0) "/0-0".toList =
      some (List.intercalate [SEP]
        ["clients".toList, c.id, "consensusStates".toList]) ∧
    ibc_key ((stripSuffix (consensusStatePathRaw c 0 0) "/0-0".toList).getD []) =
      some ( consensus_state_prefix c) := by
  have hss : ∀ s ∈ ["clients".toList, c.id, "consensusStates".toList], SegOk s := by
    intro s hs
    simp only [List.mem_cons, List.not_mem_nil, or_false] at hs
    rcases hs with rfl | rfl | rfl
    exacts [by decide, segOk_of_IdValid c.valid, by decide]
  refine ⟨⟨[DbKeySeg.StringSeg
      (heightRenderRaw h.revision_number h.revision_height)], by simp, ?_⟩, ?_, ?_⟩
  · rw [consensus_state_key_eq c h, consensus_state_prefix_eq c]
    rfl
  · rw [consensusStatePathRaw_decomp c, stripSuffix_append]
  · rw [consensusStatePathRaw_decomp c, stripSuffix_append, Option.getD_some,
      ibc_key_intercalate _ (by simp) hss, consensus_state_prefix_eq c]
    rfl

/-- C6 witness: the prefix relation at a concrete client and height. -/
theorem consensus_state_prefix_spec_witness :
    (∃ t, t ≠ [] ∧
      (consensus_state_key exClientId exHeight).segments =
        ( consensus_state_prefix exClientId).segments ++ t) ∧
    stripSuffix (consensusStatePathRaw exClientId 0 0) "/0-0".toList =
      some (List.intercalate [SEP]
        ["clients".toList, exClientId.id, "consensusStates".toList]) ∧
    ibc_key ((stripSuffix (consensusStatePathRaw exClientId 0 0)
        "/0-0".toList).getD []) =
      some ( consensus_state_prefix exClientId) :=
  consensus_state_prefix_spec exClientId exHeight

theorem is_ibc_trace_key_iff (k : Key) (o h : Str) :
    is_ibc_trace_key k = some (o, h) ↔
      k.segments = [DbKeySeg.AddressSeg ibcAddress, DbKeySeg.StringSeg TRACE,
        DbKeySeg.StringSeg o, DbKeySeg.StringSeg h] := by
  cases k with
  | mk segs =>
    simp only [is_ibc_trace_key]
    split
    next addr pfx owner hash =>
      constructor
      · intro heq
        split at heq
        next hcond =>
          simp only [Option.some.injEq, Prod.mk.injEq] at heq
          simp [hcond.1, hcond.2, heq.1, heq.2]
        next => exact absurd heq (by simp)
      · intro heq
        simp only [List.cons.injEq, DbKeySeg.AddressSeg.injEq,
          DbKeySeg.StringSeg.injEq, and_true] at heq
        obtain ⟨h1, h2, h3, h4⟩ := heq
        subst h1; subst h2; subst h3; subst h4
        simp
    next hno =>
      constructor
      · intro heq
        exact absurd heq (by simp)
      · intro heq
        exact absurd heq (hno _ _ _ _)

theorem is_ibc_counter_key_iff (k : Key) :
    is_ibc_counter_key k = true ↔
      (k = client_counter_key ∨ k = connection_counter_key ∨
        k = channel_counter_key) := by
  rw [client_counter_key_eq, connection_counter_key_eq, channel_counter_key_eq]
  cases k with
  | mk segs =>
    simp only [is_ibc_counter_key]
    split
    next addr pfx counter =>
      simp only [decide_eq_true_eq, Key.mk.injEq, List.cons.injEq,
        DbKeySeg.AddressSeg.injEq, DbKeySeg.StringSeg.injEq, and_true]
      tauto
    next hno =>
      constructor
      · intro hF
        exact absurd hF (by simp)
      · intro hF
        rcases hF with hF | hF | hF <;>
          (simp only [Key.mk.injEq] at hF; exact absurd hF (hno _ _ _))
/-- C7: for every key with a non-empty segment sequence, `is_ibc_key`
holds exactly when the first segment is the IBC address segment,
independent of the remaining segments. -/
theorem is_ibc_key_first_segment (k : Key) (hne : k.segments ≠ []) :
    is_ibc_key k = true ↔
      k.segments.head? = some (DbKeySeg.AddressSeg ibcAddress) := by
  cases k with
  | mk segs =>
    cases segs with
    | nil => exact absurd rfl hne
    | cons s rest =>
      cases s with
      | AddressSeg a => simp [is_ibc_key]
      | StringSeg s => simp [is_ibc_key]

/-- C7 witness: the characterization at concrete keys (one key under the
IBC namespace, one under a different address with extra segments). -/
theorem is_ibc_key_first_segment_witness :
    (is_ibc_key ⟨[DbKeySeg.AddressSeg ibcAddress,
        DbKeySeg.StringSeg ("clients".toList)]⟩ = true ↔
      (⟨[DbKeySeg.AddressSeg ibcAddress, DbKeySeg.StringSeg ("clients".toList)]⟩ :
        Key).segments.head? = some (DbKeySeg.AddressSeg ibcAddress)) ∧
    (is_ibc_key ⟨[DbKeySeg.AddressSeg (Address.Established 7),
        DbKeySeg.StringSeg ("clients".toList)]⟩ = true ↔
      (⟨[DbKeySeg.AddressSeg (Address.Established 7),
          DbKeySeg.StringSeg ("clients".toList)]⟩ :
        Key).segments.head? = some (DbKeySeg.AddressSeg ibcAddress)) :=
  ⟨is_ibc_key_first_segment _ (by simp),
   is_ibc_key_first_segment _ (by simp)⟩

/-- C8: the classification predicates are total (they return `Option` /
`Bool`, never an error) and match the exact key shapes:
`is_ibc_trace_key` yields `(owner, hash)` exactly on four-segment keys
`#IBC/ibc_trace/<owner>/<hash>`, and `is_ibc_counter_key` holds exactly
on the three counter keys. -/
theorem classification_predicates_spec (k : Key) (o h : Str) :
    (is_ibc_trace_key k = some (o, h) ↔
      k.segments = [DbKeySeg.AddressSeg ibcAddress, DbKeySeg.StringSeg TRACE,
        DbKeySeg.StringSeg o, DbKeySeg.StringSeg h]) ∧
    (is_ibc_counter_key k = true ↔
      (k = client_counter_key ∨ k = connection_counter_key ∨
        k = channel_counter_key)) :=
  ⟨is_ibc_trace_key_iff k o h, is_ibc_counter_key_iff k⟩

/-- C8 witness: the characterizations at a concrete trace key and at the
client counter key. -/
theorem classification_predicates_spec_witness :
    ((is_ibc_trace_key (ibc_trace_key ("atoken".toList) "ffee".toList) =
        some ("atoken".toList, "ffee".toList) ↔
      (ibc_trace_key ("atoken".toList) "ffee".toList).segments =
        [DbKeySeg.AddressSeg ibcAddress, DbKeySeg.StringSeg TRACE,
          DbKeySeg.StringSeg ("atoken".toList), DbKeySeg.StringSeg ("ffee".toList)]) ∧
    (is_ibc_counter_key (ibc_trace_key ("atoken".toList) "ffee".toList) = true ↔
      (ibc_trace_key ("atoken".toList) "ffee".toList = client_counter_key ∨
        ibc_trace_key ("atoken".toList) "ffee".toList = connection_counter_key ∨
        ibc_trace_key ("atoken".toList) "ffee".toList = channel_counter_key))) ∧
    ((is_ibc_trace_key client_counter_key =
        some ("atoken".toList, "ffee".toList) ↔
      client_counter_key.segments =
        [DbKeySeg.AddressSeg ibcAddress, DbKeySeg.StringSeg TRACE,
          DbKeySeg.StringSeg ("atoken".toList), DbKeySeg.StringSeg ("ffee".toList)]) ∧
    (is_ibc_counter_key client_counter_key = true ↔
      (client_counter_key = client_counter_key ∨
        client_counter_key = connection_counter_key ∨
        client_counter_key = channel_counter_key))) :=
  ⟨classification_predicates_spec _ _ _, classification_predicates_spec _ _ _⟩

/-- C9: every key produced by a key-constructing function of the module
begins with the reserved IBC address segment — `is_ibc_key` holds on
every such output (for the trace keys, on the domain where the pushed
labels contain no separator, matching the source's `expect`). -/
theorem constructed_keys_are_ibc (c : ClientId) (cn : ConnectionId)
    (p : PortId) (ch : ChannelId) (sq : Sequence) (h : Height)
    (cls tid owner hsh : Str) (tok : Address)
    (howner : SEP ∉ owner) (hhash : SEP ∉ hsh) :
    (∀ path k, ibc_key path = some k → is_ibc_key k = true) ∧
      is_ibc_key (client_counter_key) = true ∧
      is_ibc_key (connection_counter_key) = true ∧
      is_ibc_key (channel_counter_key) = true ∧
      is_ibc_key (client_state_key c) = true ∧
      is_ibc_key (consensus_state_key c h) = true ∧
      is_ibc_key ( consensus_state_prefix c) = true ∧
      is_ibc_key (connection_key cn) = true ∧
      is_ibc_key (channel_key p ch) = true ∧
      is_ibc_key (client_connections_key c) = true ∧
      is_ibc_key (port_key p) = true ∧
      is_ibc_key (next_sequence_send_key p ch) = true ∧
      is_ibc_key (next_sequence_recv_key p ch) = true ∧
      is_ibc_key (next_sequence_ack_key p ch) = true ∧
      is_ibc_key (commitment_key p ch sq) = true ∧
      is_ibc_key (receipt_key p ch sq) = true ∧
      is_ibc_key (ack_key p ch sq) = true ∧
      is_ibc_key (client_update_timestamp_key c) = true ∧
      is_ibc_key (client_update_height_key c) = true ∧
      is_ibc_key (nft_class_key cls) = true ∧
      is_ibc_key (nft_metadata_key cls tid) = true ∧
      is_ibc_key ( ibc_trace_key_prefix none) = true ∧
      is_ibc_key ( ibc_trace_key_prefix (some owner)) = true ∧
      is_ibc_key (ibc_trace_key owner hsh) = true ∧
      is_ibc_key (params_key) = true ∧
      is_ibc_key (mint_limit_key tok) = true ∧
      is_ibc_key (mint_amount_key tok) = true ∧
      is_ibc_key (throughput_limit_key tok) = true ∧
      is_ibc_key ( deposit_prefix) = true ∧
      is_ibc_key (deposit_key tok) = true ∧
      is_ibc_key ( withdraw_prefix) = true ∧
      is_ibc_key (withdraw_key tok) = true := by
  refine ⟨?_, ?_, ?_, ?_, ?_, ?_, ?_, ?_, ?_, ?_, ?_, ?_, ?_, ?_, ?_, ?_, ?_, ?_, ?_, ?_, ?_, ?_, ?_, ?_, ?_, ?_, ?_, ?_, ?_, ?_, ?_, ?_⟩
  · intro path k hk
    rw [ibc_key] at hk
    rw [Option.map_eq_some'] at hk
    obtain ⟨kp, _, hk2⟩ := hk
    rw [← hk2]
    rfl
  · rw [client_counter_key_eq]
    rfl
  · rw [connection_counter_key_eq]
    rfl
  · rw [channel_counter_key_eq]
    rfl
  · rw [client_state_key_eq c]
    rfl
  · rw [consensus_state_key_eq c h]
    rfl
  · rw [consensus_state_prefix_eq c]
    rfl
  · rw [connection_key_eq cn]
    rfl
  · rw [channel_key_eq p ch]
    rfl
  · rw [client_connections_key_eq c]
    rfl
  · rw [port_key_eq p]
    rfl
  · rw [next_sequence_send_key_eq p ch]
    rfl
  · rw [next_sequence_recv_key_eq p ch]
    rfl
  · rw [next_sequence_ack_key_eq p ch]
    rfl
  · rw [commitment_key_eq p ch sq]
    rfl
  · rw [receipt_key_eq p ch sq]
    rfl
  · rw [ack_key_eq p ch sq]
    rfl
  · rw [client_update_timestamp_key_eq c]
    rfl
  · rw [client_update_height_key_eq c]
    rfl
  · rw [nft_class_key_eq cls]
    rfl
  · rw [nft_metadata_key_eq cls tid]
    rfl
  · rw [ibc_trace_key_prefix_none_eq]
    rfl
  · rw [ibc_trace_key_prefix_some_eq owner howner]
    rfl
  · rw [ibc_trace_key_eq owner hsh howner hhash]
    rfl
  · rw [params_key_eq]
    rfl
  · rw [mint_limit_key_eq tok]
    rfl
  · rw [mint_amount_key_eq tok]
    rfl
  · rw [throughput_limit_key_eq tok]
    rfl
  · rw [deposit_prefix_eq]
    rfl
  · rw [deposit_key_eq tok]
    rfl
  · rw [withdraw_prefix_eq]
    rfl
  · rw [withdraw_key_eq tok]
    rfl

/-- C9 witness: the invariant at concrete identifiers, with both
separator hypotheses discharged by computation. -/
theorem constructed_keys_are_ibc_witness :
    (∀ path k, ibc_key path = some k → is_ibc_key k = true) ∧
      is_ibc_key (client_counter_key) = true ∧
      is_ibc_key (connection_counter_key) = true ∧
      is_ibc_key (channel_counter_key) = true ∧
      is_ibc_key (client_state_key exClientId) = true ∧
      is_ibc_key (consensus_state_key exClientId exHeight) = true ∧
      is_ibc_key ( consensus_state_prefix exClientId) = true ∧
      is_ibc_key (connection_key exConnectionId) = true ∧
      is_ibc_key (channel_key exPortId exChannelId) = true ∧
      is_ibc_key (client_connections_key exClientId) = true ∧
      is_ibc_key (port_key exPortId) = true ∧
      is_ibc_key (next_sequence_send_key exPortId exChannelId) = true ∧
      is_ibc_key (next_sequence_recv_key exPortId exChannelId) = true ∧
      is_ibc_key (next_sequence_ack_key exPortId exChannelId) = true ∧
      is_ibc_key (commitment_key exPortId exChannelId exSequence) = true ∧
      is_ibc_key (receipt_key exPortId exChannelId exSequence) = true ∧
      is_ibc_key (ack_key exPortId exChannelId exSequence) = true ∧
      is_ibc_key (client_update_timestamp_key exClientId) = true ∧
      is_ibc_key (client_update_height_key exClientId) = true ∧
      is_ibc_key (nft_class_key ("class".toList)) = true ∧
      is_ibc_key (nft_metadata_key ("class".toList) "tid".toList) = true ∧
      is_ibc_key ( ibc_trace_key_prefix none) = true ∧
      is_ibc_key ( ibc_trace_key_prefix (some ("atoken".toList))) = true ∧
      is_ibc_key (ibc_trace_key ("atoken".toList) "ffee".toList) = true ∧
      is_ibc_key (params_key) = true ∧
      is_ibc_key (mint_limit_key ibcAddress) = true ∧
      is_ibc_key (mint_amount_key ibcAddress) = true ∧
      is_ibc_key (throughput_limit_key ibcAddress) = true ∧
      is_ibc_key ( deposit_prefix) = true ∧
      is_ibc_key (deposit_key ibcAddress) = true ∧
      is_ibc_key ( withdraw_prefix) = true ∧
      is_ibc_key (withdraw_key ibcAddress) = true :=
  constructed_keys_are_ibc exClientId exConnectionId exPortId exChannelId
    exSequence exHeight ("class".toList) "tid".toList ("atoken".toList)
    "ffee".toList ibcAddress (by decide) (by decide)

theorem sha256_length (m : List Nat) : (sha256 m).length = 32 := by
  simp [sha256, toBytesBE]

/-- C3: `calc_ibc_token_hash` is exactly the first 20 bytes of the
32-byte SHA-256 digest of the UTF-8 bytes of the input (no
normalization is applied to the input), `ibc_token` wraps that hash in
an internal token address, and `ibc_token_for_nft` hashes the string
`"<classId>/<tokenId>"`. -/
theorem ibc_token_hash_spec (s : Str) :
    (calc_ibc_token_hash s).bytes = (sha256 (utf8Encode s)).take 20 ∧
    (sha256 (utf8Encode s)).length = 32 ∧
    (calc_ibc_token_hash s).bytes.length = 20 ∧
    ibc_token s =
      Address.Internal (InternalAddress.IbcToken (calc_ibc_token_hash s)) ∧
    (∀ class_id token_id : Str,
      ibc_token_for_nft class_id token_id =
        ibc_token (class_id ++ SEP :: token_id)) := by
  refine ⟨rfl, sha256_length _, ?_, rfl, fun _ _ => rfl⟩
  simp [calc_ibc_token_hash, List.length_take, sha256_length, HASH_LEN]

/-- C4: `get_limits` resolves the two limits independently, falling
back to the `IbcParameters` defaults stored at `params_key` for
whichever override is absent. -/
theorem get_limits_fallback (store : Store) (token : Address)
    (prm : IbcParameters)
    (hp : store params_key = some (StoredVal.params prm)) :
    (store (mint_limit_key token) = none →
      store (throughput_limit_key token) = none →
      get_limits store token =
        GetLimitsResult.ok prm.default_mint_limit
          prm.default_per_epoch_throughput_limit) ∧
    (∀ ml, store (mint_limit_key token) = some (StoredVal.amount ml) →
      store (throughput_limit_key token) = none →
      get_limits store token =
        GetLimitsResult.ok ml prm.default_per_epoch_throughput_limit) ∧
    (∀ tl, store (mint_limit_key token) = none →
      store (throughput_limit_key token) = some (StoredVal.amount tl) →
      get_limits store token =
        GetLimitsResult.ok prm.default_mint_limit tl) ∧
    (∀ ml tl, store (mint_limit_key token) = some (StoredVal.amount ml) →
      store (throughput_limit_key token) = some (StoredVal.amount tl) →
      get_limits store token = GetLimitsResult.ok ml tl) := by
  refine ⟨?_, ?_, ?_, ?_⟩
  · intro h1 h2
    simp [get_limits, read_amount, read_params, h1, h2, hp]
  · intro ml h1 h2
    simp [get_limits, read_amount, read_params, h1, h2, hp]
  · intro tl h1 h2
    simp [get_limits, read_amount, read_params, h1, h2, hp]
  · intro ml tl h1 h2
    simp [get_limits, read_amount, h1, h2]

/-- C4 witness: the three fallback behaviors at concrete stores. -/
theorem get_limits_fallback_witness :
    get_limits exStoreMintOnly exToken = GetLimitsResult.ok 11 7 ∧
    get_limits exStoreNone exToken = GetLimitsResult.ok 5 7 ∧
    get_limits exStoreAll exToken = GetLimitsResult.ok 11 13 :=
  ⟨(get_limits_fallback exStoreMintOnly exToken exParams (by decide)).2.1 11
      (by decide) (by decide),
   (get_limits_fallback exStoreNone exToken exParams (by decide)).1
      (by decide) (by decide),
   (get_limits_fallback exStoreAll exToken exParams (by decide)).2.2.2 11 13
      (by decide) (by decide)⟩

/-- C10: when both per-token overrides are present, `get_limits`
returns them without consulting the parameters key (so it succeeds even
if the parameters record is absent), and the
`expect("Parameters should be stored")` outcome is reachable only when
at least one override is missing from the store. -/
theorem get_limits_overrides_independent_of_params (store : Store)
    (token : Address) :
    (∀ ml tl, store (mint_limit_key token) = some (StoredVal.amount ml) →
      store (throughput_limit_key token) = some (StoredVal.amount tl) →
      get_limits store token = GetLimitsResult.ok ml tl) ∧
    (get_limits store token = GetLimitsResult.missingParams →
      store (mint_limit_key token) = none ∨
        store (throughput_limit_key token) = none) := by
  constructor
  · intro ml tl h1 h2
    simp [get_limits, read_amount, h1, h2]
  · intro hf
    cases hm : store (mint_limit_key token) with
    | none => exact Or.inl rfl
    | some v =>
      cases v with
      | amount a =>
        cases ht : store (throughput_limit_key token) with
        | none => exact Or.inr rfl
        | some w =>
          cases w with
          | amount b => simp [get_limits, read_amount, hm, ht] at hf
          | params q => simp [get_limits, read_amount, hm, ht] at hf
          | other => simp [get_limits, read_amount, hm, ht] at hf
      | params q => simp [get_limits, read_amount, hm] at hf
      | other => simp [get_limits, read_amount, hm] at hf

/-- C10 witness: with both overrides present and no parameters record
stored at all, `get_limits` still succeeds with the stored pair. -/
theorem get_limits_overrides_independent_of_params_witness :
    get_limits exStoreBoth exToken = GetLimitsResult.ok 11 13 :=
  (get_limits_overrides_independent_of_params exStoreBoth exToken).1 11 13
    (by decide) (by decide)

/-- C5: `mint_tokens` propagates a failure of the underlying mint
before emitting anything, and on success credits `amount` (attributed
to the internal IBC address), reads back the post balance, and appends
exactly one `BalanceChange` event with transaction level, descriptor
`mint-ibc-tokens`, the read-back post balance, and delta `+amount`. -/
theorem mint_tokens_event_spec (st : LedgerState) (target token : Address)
    (amount : Nat) :
    (∀ e, token_mint_tokens st ibcAddress token target amount =
        Except.error e →
      mint_tokens st target token amount = Except.error e) ∧
    (∀ st1, token_mint_tokens st ibcAddress token target amount =
        Except.ok st1 →
      st1.events = st.events ∧
      read_balance st1 token target = st.balances token target + amount ∧
      mint_tokens st target token amount =
        Except.ok ⟨st1.balances,
          st1.events ++
            [TokenEvent.BalanceChange EventLevel.Tx ("mint-ibc-tokens".toList)
              token (BalanceChangeTarget.Internal target)
              (some (read_balance st1 token target)) (Int.ofNat amount)]⟩) := by
  constructor
  · intro e he
    simp [mint_tokens, he]
  · intro st1 h1
    have hok : st1 = ⟨fun t o =>
        if t = token ∧ o = target then st.balances token target + amount
        else st.balances t o, st.events⟩ := by
      unfold token_mint_tokens at h1
      split at h1
      · exact (Except.ok.injEq _ _).mp h1.symm
      · exact absurd h1 (by simp)
    subst hok
    refine ⟨rfl, by simp [read_balance], ?_⟩
    simp [mint_tokens, h1, emitEvent]

/-- C5 witness: minting 100 from balance 0 emits exactly one event with
post-balance 100 and delta +100. -/
theorem mint_tokens_event_spec_witness :
    Except.map LedgerState.events (mint_tokens exLedger exTarget exMintToken 100) =
      Except.ok [TokenEvent.BalanceChange EventLevel.Tx
        "mint-ibc-tokens".toList exMintToken
        (BalanceChangeTarget.Internal exTarget) (some 100) (Int.ofNat 100)] := by
  have h := (mint_tokens_event_spec exLedger exTarget exMintToken 100).2 _ rfl
  rw [h.2.2]
  rfl

end NamadaIbc
